import Mathlib

/-!
Shallow embedding of the synchronization core of the
kontent-ms365-asana-integration repository, together with proofs about it.

Embedded source files:
* `src/src/types/config.ts` — configuration and context records.
* `src/src/services/sync.service.ts` — `SyncService` (`syncContext`,
  `syncToMicrosoft365`, `syncToAsana`) and its in-memory sync map.
* `src/src/services/microsoft365.service.ts` — `Microsoft365Service`
  (`isEnabled`, `createCalendarEvent`, `updateCalendarEvent`).
* `src/src/services/asana.service.ts` — `AsanaService`
  (`isEnabled`, `createTask`, `updateTask`).

Modelling conventions:
* Timestamps are `Int` milliseconds since the Unix epoch (`Date.getTime()`).
* Network outcomes are supplied by an `Oracle`: each outbound create/update
  call reads its result (new remote id / success flag) from the oracle.
* Every outbound create/update API call is recorded as a `CallEvent` in a
  trace, so "number of create calls issued" is a statement about the trace.
* The JavaScript `Map<string, {...}>` of `SyncService` is an association
  list `SyncMap`.  JavaScript object aliasing matters in `syncContext`:
  the record object read at the start of the call is mutated in place by
  the create paths, so the final map write observes those mutations when
  (and only when) the key was already bound at the start of the call.
  The functional model reproduces exactly that observable behaviour.
-/

/-- SyncContext from `src/src/types/config.ts` (lines 22-29): the
desired-state projection handed to `SyncService.syncContext`. -/
structure SyncContext where
  contentItemId : String
  languageId : String
  workflowStep : Option String := none
  contributors : Option (List String) := none
  dueDate : Option Int := none
  title : Option String := none
deriving Repr, DecidableEq

/-- Microsoft 365 part of AppConfig (`src/src/types/config.ts` lines 2-7). -/
structure Ms365Config where
  clientId : String
  tenantId : String
  clientSecret : String
  enabled : Bool
deriving Repr, DecidableEq

/-- Asana part of AppConfig (`src/src/types/config.ts` lines 8-13). -/
structure AsanaConfig where
  accessToken : String
  workspaceId : Option String := none
  projectId : Option String := none
  enabled : Bool
deriving Repr, DecidableEq

/-- Global sync toggles (`src/src/types/config.ts` lines 14-19). -/
structure SyncSettings where
  syncContributors : Bool
  syncWorkflowSteps : Bool
  createCalendarEvents : Bool
  createTasks : Bool
deriving Repr, DecidableEq

/-- AppConfig (`src/src/types/config.ts` lines 1-20); every section is
optional, as in the TypeScript interface. -/
structure AppConfig where
  microsoft365 : Option Ms365Config := none
  asana : Option AsanaConfig := none
  syncSettings : Option SyncSettings := none
deriving Repr, DecidableEq

/-- One entry of `SyncService.syncMap`
(`src/src/services/sync.service.ts` line 9): the per-key cache of remote
identifiers.  A missing field of the JavaScript object literal is `none`. -/
structure SyncRecord where
  ms365EventId : Option String := none
  asanaTaskId : Option String := none
deriving Repr, DecidableEq

/-- The `syncMap : Map<string, {ms365EventId?, asanaTaskId?}>` of
`SyncService`, as an association list keyed by the sync key string. -/
abbrev SyncMap := List (String × SyncRecord)

/-- Lookup in the sync map (`this.syncMap.get(syncKey)`). -/
def syncMapGet (m : SyncMap) (k : String) : Option SyncRecord :=
  match m with
  | [] => none
  | (k0, v) :: rest => if k0 == k then some v else syncMapGet rest k

/-- Insert-or-replace in the sync map (`this.syncMap.set(syncKey, v)`). -/
def syncMapSet (m : SyncMap) (k : String) (v : SyncRecord) : SyncMap :=
  match m with
  | [] => [(k, v)]
  | (k0, v0) :: rest =>
      if k0 == k then (k, v) :: rest else (k0, v0) :: syncMapSet rest k v

/-- The `ms365EventId` stored for a key, if any. -/
def msIdAt (m : SyncMap) (k : String) : Option String :=
  (syncMapGet m k).bind SyncRecord.ms365EventId

/-- The `asanaTaskId` stored for a key, if any. -/
def asanaIdAt (m : SyncMap) (k : String) : Option String :=
  (syncMapGet m k).bind SyncRecord.asanaTaskId

/-- One outbound create/update API call issued by an adapter.  Create and
update events carry the adapter-specific payload data the claims talk
about (the calendar time window, the chosen assignee, the targeted remote
id). -/
inductive CallEvent where
  | msCreate (userPrincipalName : String) (startTime endTime : Int)
  | msUpdate (userPrincipalName eventId : String) (startTime endTime : Int)
  | asanaCreate (assigneeEmail : Option String)
  | asanaUpdate (taskId : String) (assigneeEmail : Option String)
deriving Repr, DecidableEq

/-- Environment model: the outcome every outbound network call would have.
`msCreateResult upn` is the event id returned by the Graph create call for
that user's calendar (`none` = the call failed / response had no id);
`msUpdateResult upn eventId` is whether the patch succeeds;
`asanaCreateResult` is the task gid of the Asana create call, `none` on
failure; `asanaUpdateResult taskId` is whether the Asana update succeeds. -/
structure Oracle where
  msCreateResult : String → Option String
  msUpdateResult : String → String → Bool
  asanaCreateResult : Option String
  asanaUpdateResult : String → Bool

/-- Truthiness of `config?.enabled === true` for the Microsoft 365 config. -/
def optMs365Enabled (c : Option Ms365Config) : Bool :=
  match c with
  | some cfg => cfg.enabled
  | none => false

/-- Truthiness of `config?.enabled === true` for the Asana config. -/
def optAsanaEnabled (c : Option AsanaConfig) : Bool :=
  match c with
  | some cfg => cfg.enabled
  | none => false

/-- The Asana access token, `""` when the config section is absent (so that
JavaScript truthiness `!!accessToken` is `token != ""`). -/
def optAsanaToken (c : Option AsanaConfig) : String :=
  match c with
  | some cfg => cfg.accessToken
  | none => ""

/-- Microsoft365Service (`src/src/services/microsoft365.service.ts`):
its config section and whether the Graph client was initialized
(`this.client !== null`); the constructor only attempts initialization
when the config is enabled and complete, and it can fail, so the flag is
tracked as part of the service state. -/
structure Ms365Service where
  config : Option Ms365Config
  clientReady : Bool
deriving Repr, DecidableEq

/-- Microsoft365Service.isEnabled (`microsoft365.service.ts` lines 142-144):
`this.config?.enabled === true && this.client !== null`. -/
def Ms365Service.isEnabled (s : Ms365Service) : Bool :=
  optMs365Enabled s.config && s.clientReady

/-- Microsoft365Service.createCalendarEvent (`microsoft365.service.ts`
lines 53-98): returns `null` without any network call when the client is
missing or the config disabled; otherwise posts the event to the user's
calendar and returns the created id, or `null` when the call throws.
Returns the result together with the trace of issued API calls. -/
def Ms365Service.createCalendarEvent (s : Ms365Service) (o : Oracle)
    (userId : String) (_context : SyncContext) (startTime endTime : Int) :
    Option String × List CallEvent :=
  if !s.clientReady || !optMs365Enabled s.config then (none, [])
  else (o.msCreateResult userId, [CallEvent.msCreate userId startTime endTime])

/-- Microsoft365Service.updateCalendarEvent (`microsoft365.service.ts`
lines 100-140): returns `false` without any network call when the client
is missing or the config disabled; otherwise patches the existing event,
returning `true` on success and `false` when the call throws.  It never
issues a create call. -/
def Ms365Service.updateCalendarEvent (s : Ms365Service) (o : Oracle)
    (userId eventId : String) (_context : SyncContext) (startTime endTime : Int) :
    Bool × List CallEvent :=
  if !s.clientReady || !optMs365Enabled s.config then (false, [])
  else (o.msUpdateResult userId eventId,
        [CallEvent.msUpdate userId eventId startTime endTime])

/-- AsanaService (`src/src/services/asana.service.ts`): its config section
and the project id captured by the constructor (`config?.projectId`,
JavaScript truthiness, so an empty string is not captured). -/
structure AsanaService where
  config : Option AsanaConfig
  projectId : Option String
deriving Repr, DecidableEq

/-- AsanaService.isEnabled (`asana.service.ts` lines 237-239):
`this.config?.enabled === true && !!this.config.accessToken`. -/
def AsanaService.isEnabled (s : AsanaService) : Bool :=
  optAsanaEnabled s.config && optAsanaToken s.config != ""

/-- AsanaService.createTask (`asana.service.ts` lines 101-187): returns
`null` without any network call when the config is disabled or the token
missing; otherwise posts `/tasks` and returns the new task gid, or `null`
when the call throws. -/
def AsanaService.createTask (s : AsanaService) (o : Oracle)
    (_context : SyncContext) (assigneeEmail : Option String) :
    Option String × List CallEvent :=
  if !optAsanaEnabled s.config || optAsanaToken s.config == "" then (none, [])
  else (o.asanaCreateResult, [CallEvent.asanaCreate assigneeEmail])

/-- AsanaService.updateTask (`asana.service.ts` lines 189-235): returns
`false` without any network call when the config is disabled or the token
missing; otherwise issues `PUT /tasks/{taskId}`, returning `true` on
success and `false` when the call throws.  It never issues a create call. -/
def AsanaService.updateTask (s : AsanaService) (o : Oracle)
    (taskId : String) (_context : SyncContext) (assigneeEmail : Option String) :
    Bool × List CallEvent :=
  if !optAsanaEnabled s.config || optAsanaToken s.config == "" then (false, [])
  else (o.asanaUpdateResult taskId, [CallEvent.asanaUpdate taskId assigneeEmail])

/-- SyncService (`sync.service.ts` lines 5-15): the app config plus the
Microsoft 365 client-initialization outcome; the two adapter services are
derived from the config exactly as in the constructor.  The mutable
`syncMap` is threaded explicitly through the operations. -/
structure SyncService where
  config : AppConfig
  msClientReady : Bool
deriving Repr, DecidableEq

/-- The `ms365Service` field built by the constructor
(`new Microsoft365Service(config.microsoft365)`). -/
def SyncService.ms365Service (s : SyncService) : Ms365Service :=
  { config := s.config.microsoft365, clientReady := s.msClientReady }

/-- The `asanaService` field built by the constructor
(`new AsanaService(config.asana)`); the Asana constructor captures
`config.projectId` under JavaScript truthiness. -/
def SyncService.asanaService (s : SyncService) : AsanaService :=
  { config := s.config.asana
    projectId :=
      match s.config.asana with
      | some cfg =>
          match cfg.projectId with
          | some p => if p == "" then none else some p
          | none => none
      | none => none }

/-- The sync key (`sync.service.ts` line 18):
`contentItemId + "-" + languageId`. -/
def syncKey (context : SyncContext) : String :=
  context.contentItemId ++ "-" ++ context.languageId

/-- The default settings object used when `config.syncSettings` is absent
(`sync.service.ts` lines 21-26). -/
def defaultSyncSettings : SyncSettings :=
  { syncContributors := true, syncWorkflowSteps := true
    createCalendarEvents := true, createTasks := true }

/-- `this.config.syncSettings || {all true}` (`sync.service.ts` line 21). -/
def SyncService.effectiveSettings (s : SyncService) : SyncSettings :=
  s.config.syncSettings.getD defaultSyncSettings

/-- Event start/end times computed in `syncToMicrosoft365`
(`sync.service.ts` lines 50-55): `dueDate ± 30` minutes when a due date is
present, else a one-hour slot starting 24 hours from `now`
(`Date.now()`). -/
def eventWindow (context : SyncContext) (now : Int) : Int × Int :=
  match context.dueDate with
  | some due => (due - 30 * 60 * 1000, due + 30 * 60 * 1000)
  | none =>
      let startTime := now + 24 * 60 * 60 * 1000
      (startTime, startTime + 60 * 60 * 1000)

/-- The `for (const contributorEmail of contributors)` loop of
`syncToMicrosoft365` (`sync.service.ts` lines 66-96).  With an existing
event id each iteration updates that event in the contributor's calendar;
without one each iteration issues a create call and, on success, stores
the returned id into the sync map record for the key (fetching the
current record, `{}` when absent, as line 88 does).  Exceptions are caught
per iteration, so every contributor is processed. -/
def SyncService.msContributorLoop (s : SyncService) (o : Oracle)
    (context : SyncContext) (existingEventId : Option String)
    (startTime endTime : Int) :
    List String → SyncMap → SyncMap × List CallEvent
  | [], m => (m, [])
  | contributorEmail :: rest, m =>
      match existingEventId with
      | some eventId =>
          let step := s.ms365Service.updateCalendarEvent o contributorEmail
            eventId context startTime endTime
          let next := s.msContributorLoop o context existingEventId
            startTime endTime rest m
          (next.1, step.2 ++ next.2)
      | none =>
          let step := s.ms365Service.createCalendarEvent o contributorEmail
            context startTime endTime
          let m1 :=
            match step.1 with
            | some eventId =>
                let existing := (syncMapGet m (syncKey context)).getD {}
                syncMapSet m (syncKey context)
                  { existing with ms365EventId := some eventId }
            | none => m
          let next := s.msContributorLoop o context existingEventId
            startTime endTime rest m1
          (next.1, step.2 ++ next.2)

/-- SyncService.syncToMicrosoft365 (`sync.service.ts` lines 46-97):
returns immediately when `config.microsoft365?.enabled` is falsy; computes
the event window; skips entirely (with a warning) when the contributor
list is empty; otherwise runs the per-contributor loop. -/
def SyncService.syncToMicrosoft365 (s : SyncService) (o : Oracle) (now : Int)
    (context : SyncContext) (existingEventId : Option String) (m : SyncMap) :
    SyncMap × List CallEvent :=
  if !optMs365Enabled s.config.microsoft365 then (m, [])
  else
    let window := eventWindow context now
    let contributors := context.contributors.getD []
    if contributors.isEmpty then (m, [])
    else s.msContributorLoop o context existingEventId window.1 window.2
      contributors m

/-- SyncService.syncToAsana (`sync.service.ts` lines 99-120): returns
immediately when `config.asana?.enabled` is falsy; uses the first
contributor (if any) as assignee; updates when an existing task id is
given, otherwise creates and, on success, stores the returned task id into
the sync map record for the key (fetching the current record, `{}` when
absent, as line 112 does). -/
def SyncService.syncToAsana (s : SyncService) (o : Oracle)
    (context : SyncContext) (existingTaskId : Option String) (m : SyncMap) :
    SyncMap × List CallEvent :=
  if !optAsanaEnabled s.config.asana then (m, [])
  else
    let assigneeEmail := (context.contributors.getD []).head?
    match existingTaskId with
    | some taskId =>
        let step := s.asanaService.updateTask o taskId context assigneeEmail
        (m, step.2)
    | none =>
        let step := s.asanaService.createTask o context assigneeEmail
        match step.1 with
        | some taskId =>
            let existing := (syncMapGet m (syncKey context)).getD {}
            (syncMapSet m (syncKey context)
              { existing with asanaTaskId := some taskId }, step.2)
        | none => (m, step.2)

/-- The adapter phase of `syncContext` (`sync.service.ts` lines 28-36):
the Microsoft 365 sync runs when `syncSettings.createCalendarEvents` and
`ms365Service.isEnabled()` both hold, then the Asana sync runs when
`syncSettings.createTasks` and `asanaService.isEnabled()` both hold.  The
existing event/task ids passed down are the fields of the record bound to
the key at the start of the call (the Microsoft 365 phase never touches
the `asanaTaskId` field, so reading it afterwards, as line 35 does, yields
the initial value). -/
def SyncService.runAdapters (s : SyncService) (o : Oracle) (now : Int)
    (context : SyncContext) (m : SyncMap) : SyncMap × List CallEvent :=
  let existingSync := syncMapGet m (syncKey context)
  let settings := s.effectiveSettings
  let ms :=
    if settings.createCalendarEvents && s.ms365Service.isEnabled then
      s.syncToMicrosoft365 o now context
        (existingSync.bind SyncRecord.ms365EventId) m
    else (m, [])
  let asana :=
    if settings.createTasks && s.asanaService.isEnabled then
      s.syncToAsana o context (existingSync.bind SyncRecord.asanaTaskId) ms.1
    else (ms.1, [])
  (asana.1, ms.2 ++ asana.2)

/-- SyncService.syncContext (`sync.service.ts` lines 17-44): snapshots the
record for the key, runs both adapter syncs, then performs the final map
write of lines 38-43.  The final write copies `existingSync`'s fields:
when a record object was bound to the key at the start of the call, that
object is the one the create paths mutated in place, so the copied fields
are the record's fields at the end of the adapter phase; when the key was
unbound, `existingSync` is `undefined` and the written record has both
fields `undefined`, discarding ids created during this call. -/
def SyncService.syncContext (s : SyncService) (o : Oracle) (now : Int)
    (context : SyncContext) (m : SyncMap) : SyncMap × List CallEvent :=
  let existingSync := syncMapGet m (syncKey context)
  let run := s.runAdapters o now context m
  let updatedSync : SyncRecord :=
    match existingSync with
    | some _ => (syncMapGet run.1 (syncKey context)).getD {}
    | none => {}
  (syncMapSet run.1 (syncKey context) updatedSync, run.2)

/-- Iterated reconciliation: `n` sequential `syncContext` calls with the
same context and environment, accumulating the trace. -/
def SyncService.syncContextN (s : SyncService) (o : Oracle) (now : Int)
    (context : SyncContext) : Nat → SyncMap → SyncMap × List CallEvent
  | 0, m => (m, [])
  | n + 1, m =>
      let first := s.syncContext o now context m
      let rest := s.syncContextN o now context n first.1
      (rest.1, first.2 ++ rest.2)

/-- Recognizer for Microsoft 365 create events. -/
def isMsCreateEvent : CallEvent → Bool
  | CallEvent.msCreate _ _ _ => true
  | _ => false

/-- Recognizer for Microsoft 365 update events. -/
def isMsUpdateEvent : CallEvent → Bool
  | CallEvent.msUpdate _ _ _ _ => true
  | _ => false

/-- Recognizer for Asana create events. -/
def isAsanaCreateEvent : CallEvent → Bool
  | CallEvent.asanaCreate _ => true
  | _ => false

/-- Recognizer for Asana update events. -/
def isAsanaUpdateEvent : CallEvent → Bool
  | CallEvent.asanaUpdate _ _ => true
  | _ => false

/-- Number of Microsoft 365 create calls in a trace. -/
def countMsCreates (tr : List CallEvent) : Nat :=
  (tr.filter isMsCreateEvent).length

/-- Number of Microsoft 365 update calls in a trace. -/
def countMsUpdates (tr : List CallEvent) : Nat :=
  (tr.filter isMsUpdateEvent).length

/-- Number of Asana create calls in a trace. -/
def countAsanaCreates (tr : List CallEvent) : Nat :=
  (tr.filter isAsanaCreateEvent).length

/-- Number of Asana update calls in a trace. -/
def countAsanaUpdates (tr : List CallEvent) : Nat :=
  (tr.filter isAsanaUpdateEvent).length

/-- Gate under which `syncContext` runs the Microsoft 365 sync
(`sync.service.ts` line 29): the settings toggle and `isEnabled()`. -/
def msSyncGate (s : SyncService) : Bool :=
  s.effectiveSettings.createCalendarEvents && s.ms365Service.isEnabled

/-- Gate under which `syncContext` runs the Asana sync
(`sync.service.ts` line 34): the settings toggle and `isEnabled()`. -/
def asanaSyncGate (s : SyncService) : Bool :=
  s.effectiveSettings.createTasks && s.asanaService.isEnabled

/-- Concrete enabled Microsoft 365 configuration for witnesses. -/
def demoMsConfig : Ms365Config :=
  { clientId := "client-id", tenantId := "tenant-id"
    clientSecret := "client-secret", enabled := true }

/-- Concrete enabled Asana configuration for witnesses. -/
def demoAsanaConfig : AsanaConfig :=
  { accessToken := "asana-token", enabled := true }

/-- Concrete app configuration with both adapters enabled. -/
def demoConfig : AppConfig :=
  { microsoft365 := some demoMsConfig, asana := some demoAsanaConfig }

/-- Concrete sync service with both adapters enabled and the Graph client
initialized. -/
def demoService : SyncService := { config := demoConfig, msClientReady := true }

/-- Concrete app configuration with both adapters disabled. -/
def demoOffConfig : AppConfig :=
  { microsoft365 := some { demoMsConfig with enabled := false }
    asana := some { demoAsanaConfig with enabled := false } }

/-- Concrete sync service with both adapters disabled. -/
def demoOffService : SyncService :=
  { config := demoOffConfig, msClientReady := false }

/-- Environment in which every outbound call succeeds. -/
def demoOracle : Oracle :=
  { msCreateResult := fun _ => some "ev-1", msUpdateResult := fun _ _ => true
    asanaCreateResult := some "task-1", asanaUpdateResult := fun _ => true }

/-- Environment in which the calendar create call fails and everything
else succeeds. -/
def demoOracleMsFail : Oracle :=
  { msCreateResult := fun _ => none, msUpdateResult := fun _ _ => true
    asanaCreateResult := some "task-1", asanaUpdateResult := fun _ => true }

/-- Environment in which every outbound call fails. -/
def demoOracleAllFail : Oracle :=
  { msCreateResult := fun _ => none, msUpdateResult := fun _ _ => false
    asanaCreateResult := none, asanaUpdateResult := fun _ => false }

/-- Concrete context with a single contributor and no due date. -/
def demoCtx : SyncContext :=
  { contentItemId := "item-1", languageId := "en"
    contributors := some ["alice@example.com"] }

/-- Concrete context with two contributors. -/
def demoCtxTwo : SyncContext :=
  { contentItemId := "item-2", languageId := "en"
    contributors := some ["alice@example.com", "bob@example.com"] }

/-- Concrete context with every optional field absent. -/
def demoBareCtx : SyncContext :=
  { contentItemId := "item-3", languageId := "en" }

/-- Concrete context whose due date is 2025-01-10T12:00:00Z
(1736510400000 ms since the epoch). -/
def demoDueCtx : SyncContext :=
  { contentItemId := "item-1", languageId := "en"
    contributors := some ["alice@example.com"]
    dueDate := some 1736510400000 }

/-- Sync record holding remote ids for both adapters. -/
def demoRecordFull : SyncRecord :=
  { ms365EventId := some "ev-0", asanaTaskId := some "task-0" }

/-- Sync map binding the key of `demoCtx` to `demoRecordFull`. -/
def demoFullMap : SyncMap := [(syncKey demoCtx, demoRecordFull)]

/-- Sync map binding the key of `demoCtx` to a record with no ids, the
state `syncContext` leaves behind after a first call on a fresh key. -/
def demoEmptyRecordMap : SyncMap := [(syncKey demoCtx, {})]

/-- Looking up the key just written returns the written record. -/
theorem syncMapGet_set_self (m : SyncMap) (k : String) (v : SyncRecord) :
    syncMapGet (syncMapSet m k v) k = some v := by
  induction m with
  | nil => simp [syncMapGet, syncMapSet]
  | cons hd tl ih =>
      obtain ⟨k0, v0⟩ := hd
      by_cases h : k0 = k
      · simp [syncMapGet, syncMapSet, h]
      · simp [syncMapGet, syncMapSet, h, ih]

/-- Writing one key does not change the lookup of another key. -/
theorem syncMapGet_set_ne (m : SyncMap) (k0 k : String) (v : SyncRecord)
    (h : k0 ≠ k) :
    syncMapGet (syncMapSet m k0 v) k = syncMapGet m k := by
  induction m with
  | nil => simp [syncMapGet, syncMapSet, h]
  | cons hd tl ih =>
      obtain ⟨k1, v1⟩ := hd
      by_cases h1 : k1 = k0
      · subst h1
        simp [syncMapGet, syncMapSet, h]
      · by_cases h2 : k1 = k
        · have h3 : k ≠ k0 := Ne.symm h
          simp [syncMapGet, syncMapSet, h1, h2, h3]
        · simp [syncMapGet, syncMapSet, h1, h2, ih]

/-- Writing back the record a key already holds leaves the map unchanged. -/
theorem syncMapSet_of_get (m : SyncMap) (k : String) (v : SyncRecord)
    (h : syncMapGet m k = some v) : syncMapSet m k v = m := by
  induction m with
  | nil => simp [syncMapGet] at h
  | cons hd tl ih =>
      obtain ⟨k0, v0⟩ := hd
      by_cases h0 : k0 = k
      · subst h0
        have hv : v0 = v := by
          have h2 := h
          simp [syncMapGet] at h2
          exact h2
        simp [syncMapSet, hv]
      · have h1 : syncMapGet tl k = some v := by
          have h2 := h
          simpa [syncMapGet, h0] using h2
        simp [syncMapSet, h0, ih h1]

/-- A key bound in the map stays bound after any write. -/
theorem isSome_syncMapGet_set (m : SyncMap) (k0 k : String) (v : SyncRecord)
    (h : (syncMapGet m k).isSome = true) :
    (syncMapGet (syncMapSet m k0 v) k).isSome = true := by
  by_cases hk : k0 = k
  · subst hk
    simp [syncMapGet_set_self]
  · rw [syncMapGet_set_ne m k0 k v hk]
    exact h

/-- Overwriting only the `ms365EventId` field of the record at a key (as
the Microsoft 365 create path does) does not change any stored
`asanaTaskId`. -/
theorem asanaIdAt_set_msField (m : SyncMap) (k k2 : String) (e : Option String) :
    asanaIdAt
      (syncMapSet m k
        { (syncMapGet m k).getD {} with ms365EventId := e }) k2
      = asanaIdAt m k2 := by
  by_cases hk : k = k2
  · subst hk
    cases hget : syncMapGet m k with
    | none => simp [asanaIdAt, syncMapGet_set_self, hget]
    | some r => simp [asanaIdAt, syncMapGet_set_self, hget]
  · simp [asanaIdAt, syncMapGet_set_ne m k k2 _ hk]

/-- Overwriting only the `asanaTaskId` field of the record at a key (as
the Asana create path does) does not change any stored `ms365EventId`. -/
theorem msIdAt_set_asanaField (m : SyncMap) (k k2 : String) (t : Option String) :
    msIdAt
      (syncMapSet m k
        { (syncMapGet m k).getD {} with asanaTaskId := t }) k2
      = msIdAt m k2 := by
  by_cases hk : k = k2
  · subst hk
    cases hget : syncMapGet m k with
    | none => simp [msIdAt, syncMapGet_set_self, hget]
    | some r => simp [msIdAt, syncMapGet_set_self, hget]
  · simp [msIdAt, syncMapGet_set_ne m k k2 _ hk]

/-- Microsoft 365 create counts add over trace concatenation. -/
theorem countMsCreates_append (a b : List CallEvent) :
    countMsCreates (a ++ b) = countMsCreates a + countMsCreates b := by
  simp [countMsCreates, List.filter_append]

/-- Microsoft 365 update counts add over trace concatenation. -/
theorem countMsUpdates_append (a b : List CallEvent) :
    countMsUpdates (a ++ b) = countMsUpdates a + countMsUpdates b := by
  simp [countMsUpdates, List.filter_append]

/-- Asana create counts add over trace concatenation. -/
theorem countAsanaCreates_append (a b : List CallEvent) :
    countAsanaCreates (a ++ b) = countAsanaCreates a + countAsanaCreates b := by
  simp [countAsanaCreates, List.filter_append]

/-- Asana update counts add over trace concatenation. -/
theorem countAsanaUpdates_append (a b : List CallEvent) :
    countAsanaUpdates (a ++ b) = countAsanaUpdates a + countAsanaUpdates b := by
  simp [countAsanaUpdates, List.filter_append]

/-- Call counts of a trace made only of Microsoft 365 create events. -/
theorem counts_map_msCreate (cs : List String) (st et : Int) :
    countMsCreates (cs.map fun c => CallEvent.msCreate c st et) = cs.length ∧
    countMsUpdates (cs.map fun c => CallEvent.msCreate c st et) = 0 ∧
    countAsanaCreates (cs.map fun c => CallEvent.msCreate c st et) = 0 ∧
    countAsanaUpdates (cs.map fun c => CallEvent.msCreate c st et) = 0 := by
  induction cs with
  | nil =>
      simp [countMsCreates, countMsUpdates, countAsanaCreates, countAsanaUpdates]
  | cons c rest ih =>
      simpa [countMsCreates, countMsUpdates, countAsanaCreates,
        countAsanaUpdates, List.filter, isMsCreateEvent, isMsUpdateEvent,
        isAsanaCreateEvent, isAsanaUpdateEvent] using ih

/-- Components of the Microsoft 365 sync gate of `syncContext`. -/
theorem msGate_fields (s : SyncService) (h : msSyncGate s = true) :
    s.effectiveSettings.createCalendarEvents = true ∧
    s.ms365Service.isEnabled = true ∧
    s.msClientReady = true ∧
    optMs365Enabled s.config.microsoft365 = true := by
  have h2 := h
  simp [msSyncGate, Ms365Service.isEnabled, SyncService.ms365Service,
    Bool.and_eq_true] at h2
  refine ⟨h2.1, ?_, h2.2.2, h2.2.1⟩
  simp [Ms365Service.isEnabled, SyncService.ms365Service, h2.2.1, h2.2.2]

/-- Components of the Asana sync gate of `syncContext`. -/
theorem asanaGate_fields (s : SyncService) (h : asanaSyncGate s = true) :
    s.effectiveSettings.createTasks = true ∧
    s.asanaService.isEnabled = true ∧
    optAsanaEnabled s.config.asana = true ∧
    (optAsanaToken s.config.asana == "") = false := by
  have h2 := h
  simp [asanaSyncGate, AsanaService.isEnabled, SyncService.asanaService,
    Bool.and_eq_true] at h2
  refine ⟨h2.1, ?_, h2.2.1, ?_⟩
  · simp [AsanaService.isEnabled, SyncService.asanaService, h2.2.1, h2.2.2]
  · simpa using h2.2.2

/-- With an existing event id and a working adapter, the contributor loop
updates once per contributor and leaves the map unchanged. -/
theorem msLoop_update_eq (s : SyncService) (o : Oracle) (context : SyncContext)
    (eid : String) (st et : Int) (cs : List String) (m : SyncMap)
    (hc : s.msClientReady = true)
    (he : optMs365Enabled s.config.microsoft365 = true) :
    s.msContributorLoop o context (some eid) st et cs m
      = (m, cs.map fun c => CallEvent.msUpdate c eid st et) := by
  induction cs with
  | nil => simp [SyncService.msContributorLoop]
  | cons c rest ih =>
      simp [SyncService.msContributorLoop, Ms365Service.updateCalendarEvent,
        SyncService.ms365Service, hc, he, ih]

/-- Without an existing event id and with a working adapter, the
contributor loop issues one create call per contributor. -/
theorem msLoop_create_trace (s : SyncService) (o : Oracle) (context : SyncContext)
    (st et : Int) (cs : List String) (m : SyncMap)
    (hc : s.msClientReady = true)
    (he : optMs365Enabled s.config.microsoft365 = true) :
    (s.msContributorLoop o context none st et cs m).2
      = cs.map fun c => CallEvent.msCreate c st et := by
  induction cs generalizing m with
  | nil => simp [SyncService.msContributorLoop]
  | cons c rest ih =>
      cases hres : o.msCreateResult c <;>
        simp [SyncService.msContributorLoop, Ms365Service.createCalendarEvent,
          SyncService.ms365Service, hc, he, hres, ih]

/-- When every create call fails, the contributor loop leaves the map
unchanged. -/
theorem msLoop_fail_map (s : SyncService) (o : Oracle) (context : SyncContext)
    (st et : Int) (cs : List String) (m : SyncMap)
    (hfail : ∀ c, o.msCreateResult c = none) :
    (s.msContributorLoop o context none st et cs m).1 = m := by
  induction cs generalizing m with
  | nil => simp [SyncService.msContributorLoop]
  | cons c rest ih =>
      have hstep : (s.ms365Service.createCalendarEvent o c context st et).1 = none := by
        simp [Ms365Service.createCalendarEvent, hfail, apply_ite]
      simp [SyncService.msContributorLoop, hstep, ih]

/-- The contributor loop never changes a stored `asanaTaskId`. -/
theorem msLoop_asanaIdAt (s : SyncService) (o : Oracle) (context : SyncContext)
    (eidOpt : Option String) (st et : Int) (cs : List String) (m : SyncMap)
    (k2 : String) :
    asanaIdAt (s.msContributorLoop o context eidOpt st et cs m).1 k2
      = asanaIdAt m k2 := by
  induction cs generalizing m with
  | nil => simp [SyncService.msContributorLoop]
  | cons c rest ih =>
      cases eidOpt with
      | some eid => simp [SyncService.msContributorLoop, ih]
      | none =>
          cases hres : (s.ms365Service.createCalendarEvent o c context st et).1 with
          | none => simp [SyncService.msContributorLoop, hres, ih]
          | some eid =>
              simp [SyncService.msContributorLoop, hres, ih,
                asanaIdAt_set_msField]

/-- The contributor loop keeps every bound key bound. -/
theorem msLoop_isSome (s : SyncService) (o : Oracle) (context : SyncContext)
    (eidOpt : Option String) (st et : Int) (cs : List String) (m : SyncMap)
    (k2 : String) (h : (syncMapGet m k2).isSome = true) :
    (syncMapGet (s.msContributorLoop o context eidOpt st et cs m).1 k2).isSome
      = true := by
  induction cs generalizing m with
  | nil => simpa [SyncService.msContributorLoop] using h
  | cons c rest ih =>
      cases eidOpt with
      | some eid => simpa [SyncService.msContributorLoop] using ih m h
      | none =>
          cases hres : (s.ms365Service.createCalendarEvent o c context st et).1 with
          | none => simpa [SyncService.msContributorLoop, hres] using ih m h
          | some eid =>
              have h1 := isSome_syncMapGet_set m (syncKey context) k2
                { (syncMapGet m (syncKey context)).getD {} with
                  ms365EventId := some eid } h
              simpa [SyncService.msContributorLoop, hres] using ih _ h1

/-- A calendar create call never emits Asana events. -/
theorem msCreateStep_no_asana (sv : Ms365Service) (o : Oracle) (u : String)
    (context : SyncContext) (st et : Int) :
    countAsanaCreates (sv.createCalendarEvent o u context st et).2 = 0 ∧
    countAsanaUpdates (sv.createCalendarEvent o u context st et).2 = 0 := by
  cases hg : (!sv.clientReady || !optMs365Enabled sv.config) <;>
    simp [Ms365Service.createCalendarEvent, hg, countAsanaCreates,
      countAsanaUpdates, List.filter, isAsanaCreateEvent, isAsanaUpdateEvent]

/-- A calendar update call never emits Asana events. -/
theorem msUpdateStep_no_asana (sv : Ms365Service) (o : Oracle) (u e : String)
    (context : SyncContext) (st et : Int) :
    countAsanaCreates (sv.updateCalendarEvent o u e context st et).2 = 0 ∧
    countAsanaUpdates (sv.updateCalendarEvent o u e context st et).2 = 0 := by
  cases hg : (!sv.clientReady || !optMs365Enabled sv.config) <;>
    simp [Ms365Service.updateCalendarEvent, hg, countAsanaCreates,
      countAsanaUpdates, List.filter, isAsanaCreateEvent, isAsanaUpdateEvent]

/-- The contributor loop never emits Asana events. -/
theorem msLoop_no_asana (s : SyncService) (o : Oracle) (context : SyncContext)
    (eidOpt : Option String) (st et : Int) (cs : List String) (m : SyncMap) :
    countAsanaCreates (s.msContributorLoop o context eidOpt st et cs m).2 = 0 ∧
    countAsanaUpdates (s.msContributorLoop o context eidOpt st et cs m).2 = 0 := by
  induction cs generalizing m with
  | nil => simp [SyncService.msContributorLoop, countAsanaCreates, countAsanaUpdates]
  | cons c rest ih =>
      cases eidOpt with
      | some eid =>
          have hstep := msUpdateStep_no_asana (s.ms365Service) o c eid context st et
          have hrest := ih m
          simp [SyncService.msContributorLoop, countAsanaCreates_append,
            countAsanaUpdates_append, hstep.1, hstep.2, hrest.1, hrest.2]
      | none =>
          have hstep := msCreateStep_no_asana (s.ms365Service) o c context st et
          cases hres : (s.ms365Service.createCalendarEvent o c context st et).1 with
          | none =>
              have hrest := ih m
              simp [SyncService.msContributorLoop, hres, countAsanaCreates_append,
                countAsanaUpdates_append, hstep.1, hstep.2, hrest.1, hrest.2]
          | some eid =>
              have hrest := ih (syncMapSet m (syncKey context)
                { (syncMapGet m (syncKey context)).getD {} with
                  ms365EventId := some eid })
              simp [SyncService.msContributorLoop, hres, countAsanaCreates_append,
                countAsanaUpdates_append, hstep.1, hstep.2, hrest.1, hrest.2]

/-- The Microsoft 365 sync never changes a stored `asanaTaskId`. -/
theorem syncToMs_asanaIdAt (s : SyncService) (o : Oracle) (now : Int)
    (context : SyncContext) (eidOpt : Option String) (m : SyncMap) (k2 : String) :
    asanaIdAt (s.syncToMicrosoft365 o now context eidOpt m).1 k2
      = asanaIdAt m k2 := by
  unfold SyncService.syncToMicrosoft365
  cases he : optMs365Enabled s.config.microsoft365 with
  | false => simp [he]
  | true =>
      cases hc : (context.contributors.getD []).isEmpty <;>
        simp [he, hc, msLoop_asanaIdAt]

/-- The Microsoft 365 sync keeps every bound key bound. -/
theorem syncToMs_isSome (s : SyncService) (o : Oracle) (now : Int)
    (context : SyncContext) (eidOpt : Option String) (m : SyncMap) (k2 : String)
    (h : (syncMapGet m k2).isSome = true) :
    (syncMapGet (s.syncToMicrosoft365 o now context eidOpt m).1 k2).isSome
      = true := by
  unfold SyncService.syncToMicrosoft365
  cases he : optMs365Enabled s.config.microsoft365 with
  | false => simpa [he] using h
  | true =>
      cases hc : (context.contributors.getD []).isEmpty with
      | true => simpa [he, hc] using h
      | false =>
          simpa [he, hc] using
            msLoop_isSome s o context eidOpt (eventWindow context now).1
              (eventWindow context now).2 (context.contributors.getD []) m k2 h

/-- The Microsoft 365 sync never emits Asana events. -/
theorem syncToMs_no_asana (s : SyncService) (o : Oracle) (now : Int)
    (context : SyncContext) (eidOpt : Option String) (m : SyncMap) :
    countAsanaCreates (s.syncToMicrosoft365 o now context eidOpt m).2 = 0 ∧
    countAsanaUpdates (s.syncToMicrosoft365 o now context eidOpt m).2 = 0 := by
  unfold SyncService.syncToMicrosoft365
  cases he : optMs365Enabled s.config.microsoft365 with
  | false => simp [he, countAsanaCreates, countAsanaUpdates]
  | true =>
      cases hc : (context.contributors.getD []).isEmpty with
      | true => simp [he, hc, countAsanaCreates, countAsanaUpdates]
      | false =>
          simpa [he, hc] using
            msLoop_no_asana s o context eidOpt (eventWindow context now).1
              (eventWindow context now).2 (context.contributors.getD []) m

/-- The Asana sync never changes a stored `ms365EventId`. -/
theorem syncToAsana_msIdAt (s : SyncService) (o : Oracle)
    (context : SyncContext) (tidOpt : Option String) (m : SyncMap) (k2 : String) :
    msIdAt (s.syncToAsana o context tidOpt m).1 k2 = msIdAt m k2 := by
  unfold SyncService.syncToAsana
  cases ha : optAsanaEnabled s.config.asana with
  | false => simp [ha]
  | true =>
      cases tidOpt with
      | some tid => simp [ha]
      | none =>
          cases hres : (s.asanaService.createTask o context
              (context.contributors.getD []).head?).1 with
          | none => simp [ha, hres]
          | some tid => simp [ha, hres, msIdAt_set_asanaField]

/-- The Asana sync keeps every bound key bound. -/
theorem syncToAsana_isSome (s : SyncService) (o : Oracle)
    (context : SyncContext) (tidOpt : Option String) (m : SyncMap) (k2 : String)
    (h : (syncMapGet m k2).isSome = true) :
    (syncMapGet (s.syncToAsana o context tidOpt m).1 k2).isSome = true := by
  unfold SyncService.syncToAsana
  cases ha : optAsanaEnabled s.config.asana with
  | false => simpa [ha] using h
  | true =>
      cases tidOpt with
      | some tid => simpa [ha] using h
      | none =>
          cases hres : (s.asanaService.createTask o context
              (context.contributors.getD []).head?).1 with
          | none => simpa [ha, hres] using h
          | some tid =>
              simpa [ha, hres] using isSome_syncMapGet_set m (syncKey context) k2
                { (syncMapGet m (syncKey context)).getD {} with
                  asanaTaskId := some tid } h

/-- An Asana create call never emits Microsoft 365 events. -/
theorem asanaCreateStep_no_ms (sv : AsanaService) (o : Oracle)
    (context : SyncContext) (a : Option String) :
    countMsCreates (sv.createTask o context a).2 = 0 ∧
    countMsUpdates (sv.createTask o context a).2 = 0 := by
  cases hg : (!optAsanaEnabled sv.config || optAsanaToken sv.config == "") <;>
    simp [AsanaService.createTask, hg, countMsCreates, countMsUpdates,
      List.filter, isMsCreateEvent, isMsUpdateEvent]

/-- An Asana update call never emits Microsoft 365 events. -/
theorem asanaUpdateStep_no_ms (sv : AsanaService) (o : Oracle) (t : String)
    (context : SyncContext) (a : Option String) :
    countMsCreates (sv.updateTask o t context a).2 = 0 ∧
    countMsUpdates (sv.updateTask o t context a).2 = 0 := by
  cases hg : (!optAsanaEnabled sv.config || optAsanaToken sv.config == "") <;>
    simp [AsanaService.updateTask, hg, countMsCreates, countMsUpdates,
      List.filter, isMsCreateEvent, isMsUpdateEvent]

/-- The Asana sync never emits Microsoft 365 events. -/
theorem syncToAsana_no_ms (s : SyncService) (o : Oracle)
    (context : SyncContext) (tidOpt : Option String) (m : SyncMap) :
    countMsCreates (s.syncToAsana o context tidOpt m).2 = 0 ∧
    countMsUpdates (s.syncToAsana o context tidOpt m).2 = 0 := by
  unfold SyncService.syncToAsana
  cases ha : optAsanaEnabled s.config.asana with
  | false => simp [ha, countMsCreates, countMsUpdates]
  | true =>
      cases tidOpt with
      | some tid =>
          simpa [ha] using asanaUpdateStep_no_ms (s.asanaService) o tid context
            (context.contributors.getD []).head?
      | none =>
          have hstep := asanaCreateStep_no_ms (s.asanaService) o context
            (context.contributors.getD []).head?
          cases hres : (s.asanaService.createTask o context
              (context.contributors.getD []).head?).1 with
          | none => simpa [ha, hres] using hstep
          | some tid => simpa [ha, hres] using hstep

/-- The adapter phase keeps every bound key bound. -/
theorem runAdapters_isSome (s : SyncService) (o : Oracle) (now : Int)
    (context : SyncContext) (m : SyncMap) (k2 : String)
    (h : (syncMapGet m k2).isSome = true) :
    (syncMapGet (s.runAdapters o now context m).1 k2).isSome = true := by
  unfold SyncService.runAdapters
  cases hg1 : s.effectiveSettings.createCalendarEvents && s.ms365Service.isEnabled with
  | false =>
      cases hg2 : s.effectiveSettings.createTasks && s.asanaService.isEnabled with
      | false => simpa [hg1, hg2] using h
      | true => simpa [hg1, hg2] using syncToAsana_isSome s o context _ m k2 h
  | true =>
      have h1 := syncToMs_isSome s o now context
        ((syncMapGet m (syncKey context)).bind SyncRecord.ms365EventId) m k2 h
      cases hg2 : s.effectiveSettings.createTasks && s.asanaService.isEnabled with
      | false => simpa [hg1, hg2] using h1
      | true => simpa [hg1, hg2] using syncToAsana_isSome s o context _ _ k2 h1

/-- When the key was unbound at the start of the call, the final write of
`sync.service.ts` lines 38-43 binds it to the empty record, discarding any
ids created during the call. -/
theorem syncContext_get_final_absent (s : SyncService) (o : Oracle) (now : Int)
    (context : SyncContext) (m : SyncMap)
    (hex : syncMapGet m (syncKey context) = none) :
    syncMapGet (s.syncContext o now context m).1 (syncKey context)
      = some {} := by
  unfold SyncService.syncContext
  simp [hex, syncMapGet_set_self]

/-- When a record was bound to the key at the start of the call, the final
write binds the key to a copy of the record as it stands after the adapter
phase (the bound object was mutated in place by the create paths). -/
theorem syncContext_get_final_present (s : SyncService) (o : Oracle) (now : Int)
    (context : SyncContext) (m : SyncMap) (r : SyncRecord)
    (hex : syncMapGet m (syncKey context) = some r) :
    syncMapGet (s.syncContext o now context m).1 (syncKey context)
      = some ((syncMapGet (s.runAdapters o now context m).1
          (syncKey context)).getD {}) := by
  unfold SyncService.syncContext
  simp [hex, syncMapGet_set_self]

/-- The trace of `syncContext` is the trace of its adapter phase. -/
theorem syncContext_trace (s : SyncService) (o : Oracle) (now : Int)
    (context : SyncContext) (m : SyncMap) :
    (s.syncContext o now context m).2 = (s.runAdapters o now context m).2 := rfl

/-- With an existing event id and a working adapter, the Microsoft 365
sync leaves the map unchanged and issues one update per contributor. -/
theorem syncToMs_update_eq (s : SyncService) (o : Oracle) (now : Int)
    (context : SyncContext) (e : String) (m : SyncMap)
    (hc : s.msClientReady = true)
    (he : optMs365Enabled s.config.microsoft365 = true) :
    s.syncToMicrosoft365 o now context (some e) m
      = (m, (context.contributors.getD []).map fun c =>
          CallEvent.msUpdate c e (eventWindow context now).1
            (eventWindow context now).2) := by
  unfold SyncService.syncToMicrosoft365
  cases hcs : (context.contributors.getD []).isEmpty with
  | true =>
      have h0 : context.contributors.getD [] = [] := List.isEmpty_iff.mp hcs
      simp [he, hcs, h0]
  | false =>
      simpa [he, hcs] using
        msLoop_update_eq s o context e (eventWindow context now).1
          (eventWindow context now).2 (context.contributors.getD []) m hc he

/-- Without an existing event id and with a working adapter, the
Microsoft 365 sync issues one create call per contributor. -/
theorem syncToMs_create_trace (s : SyncService) (o : Oracle) (now : Int)
    (context : SyncContext) (m : SyncMap)
    (hc : s.msClientReady = true)
    (he : optMs365Enabled s.config.microsoft365 = true) :
    (s.syncToMicrosoft365 o now context none m).2
      = (context.contributors.getD []).map fun c =>
          CallEvent.msCreate c (eventWindow context now).1
            (eventWindow context now).2 := by
  unfold SyncService.syncToMicrosoft365
  cases hcs : (context.contributors.getD []).isEmpty with
  | true =>
      have h0 : context.contributors.getD [] = [] := List.isEmpty_iff.mp hcs
      simp [he, hcs, h0]
  | false =>
      simpa [he, hcs] using
        msLoop_create_trace s o context (eventWindow context now).1
          (eventWindow context now).2 (context.contributors.getD []) m hc he

/-- With an existing task id and a working adapter, the Asana sync leaves
the map unchanged and issues one update call. -/
theorem syncToAsana_update_eq (s : SyncService) (o : Oracle)
    (context : SyncContext) (t : String) (m : SyncMap)
    (ha : optAsanaEnabled s.config.asana = true)
    (ht : (optAsanaToken s.config.asana == "") = false) :
    s.syncToAsana o context (some t) m
      = (m, [CallEvent.asanaUpdate t (context.contributors.getD []).head?]) := by
  simp [SyncService.syncToAsana, AsanaService.updateTask,
    SyncService.asanaService, ha, ht]

/-- Without an existing task id and with a working adapter, the Asana sync
issues exactly one create call. -/
theorem syncToAsana_create_trace (s : SyncService) (o : Oracle)
    (context : SyncContext) (m : SyncMap)
    (ha : optAsanaEnabled s.config.asana = true)
    (ht : (optAsanaToken s.config.asana == "") = false) :
    (s.syncToAsana o context none m).2
      = [CallEvent.asanaCreate (context.contributors.getD []).head?] := by
  cases hres : o.asanaCreateResult <;>
    simp [SyncService.syncToAsana, AsanaService.createTask,
      SyncService.asanaService, ha, ht, hres]

/-- When the key already holds ids for both adapters and both gates are
on, one `syncContext` call leaves the map unchanged and issues exactly one
update per contributor for the calendar adapter (targeting the stored
event id) plus one task update (targeting the stored task id). -/
theorem syncContext_update_run (s : SyncService) (o : Oracle) (now : Int)
    (context : SyncContext) (m : SyncMap) (r : SyncRecord) (e t : String)
    (hms : msSyncGate s = true) (hat : asanaSyncGate s = true)
    (hget : syncMapGet m (syncKey context) = some r)
    (hrm : r.ms365EventId = some e) (hra : r.asanaTaskId = some t) :
    s.syncContext o now context m
      = (m, ((context.contributors.getD []).map fun c =>
            CallEvent.msUpdate c e (eventWindow context now).1
              (eventWindow context now).2)
          ++ [CallEvent.asanaUpdate t (context.contributors.getD []).head?]) := by
  obtain ⟨hset1, hen1, hc, he⟩ := msGate_fields s hms
  obtain ⟨hset2, hen2, ha, ht⟩ := asanaGate_fields s hat
  have hg1 : (s.effectiveSettings.createCalendarEvents
      && s.ms365Service.isEnabled) = true := by simp [hset1, hen1]
  have hg2 : (s.effectiveSettings.createTasks
      && s.asanaService.isEnabled) = true := by simp [hset2, hen2]
  have hmsrun := syncToMs_update_eq s o now context e m hc he
  have hasrun := syncToAsana_update_eq s o context t m ha ht
  unfold SyncService.syncContext SyncService.runAdapters
  simp [hget, hrm, hra, hg1, hg2, hmsrun, hasrun,
    syncMapSet_of_get m (syncKey context) r hget]

/-- Call counts of a trace made only of Microsoft 365 update events. -/
theorem counts_map_msUpdate (cs : List String) (eid : String) (st et : Int) :
    countMsCreates (cs.map fun c => CallEvent.msUpdate c eid st et) = 0 ∧
    countMsUpdates (cs.map fun c => CallEvent.msUpdate c eid st et) = cs.length ∧
    countAsanaCreates (cs.map fun c => CallEvent.msUpdate c eid st et) = 0 ∧
    countAsanaUpdates (cs.map fun c => CallEvent.msUpdate c eid st et) = 0 := by
  induction cs with
  | nil =>
      simp [countMsCreates, countMsUpdates, countAsanaCreates, countAsanaUpdates]
  | cons c rest ih =>
      simpa [countMsCreates, countMsUpdates, countAsanaCreates,
        countAsanaUpdates, List.filter, isMsCreateEvent, isMsUpdateEvent,
        isAsanaCreateEvent, isAsanaUpdateEvent] using ih

/-- Counts of the single-call update trace of `syncContext_update_run`. -/
theorem updateTrace_counts (context : SyncContext) (now : Int) (e t : String) :
    countMsCreates (((context.contributors.getD []).map fun c =>
          CallEvent.msUpdate c e (eventWindow context now).1
            (eventWindow context now).2)
        ++ [CallEvent.asanaUpdate t (context.contributors.getD []).head?]) = 0 ∧
    countMsUpdates (((context.contributors.getD []).map fun c =>
          CallEvent.msUpdate c e (eventWindow context now).1
            (eventWindow context now).2)
        ++ [CallEvent.asanaUpdate t (context.contributors.getD []).head?])
      = (context.contributors.getD []).length ∧
    countAsanaCreates (((context.contributors.getD []).map fun c =>
          CallEvent.msUpdate c e (eventWindow context now).1
            (eventWindow context now).2)
        ++ [CallEvent.asanaUpdate t (context.contributors.getD []).head?]) = 0 ∧
    countAsanaUpdates (((context.contributors.getD []).map fun c =>
          CallEvent.msUpdate c e (eventWindow context now).1
            (eventWindow context now).2)
        ++ [CallEvent.asanaUpdate t (context.contributors.getD []).head?]) = 1 := by
  have hmap := counts_map_msUpdate (context.contributors.getD []) e
    (eventWindow context now).1 (eventWindow context now).2
  refine ⟨?_, ?_, ?_, ?_⟩
  · rw [countMsCreates_append, hmap.1]
    simp [countMsCreates, List.filter, isMsCreateEvent]
  · rw [countMsUpdates_append, hmap.2.1]
    simp [countMsUpdates, List.filter, isMsUpdateEvent]
  · rw [countAsanaCreates_append, hmap.2.2.1]
    simp [countAsanaCreates, List.filter, isAsanaCreateEvent]
  · rw [countAsanaUpdates_append, hmap.2.2.2]
    simp [countAsanaUpdates, List.filter, isAsanaUpdateEvent]

/-- Iterating `syncContext` n times over a key that already holds both
ids leaves the map unchanged and issues zero creates, n task updates and
n updates per contributor for the calendar adapter. -/
theorem syncContextN_update_case (s : SyncService) (o : Oracle) (now : Int)
    (context : SyncContext) (m : SyncMap) (r : SyncRecord) (e t : String)
    (n : Nat)
    (hms : msSyncGate s = true) (hat : asanaSyncGate s = true)
    (hget : syncMapGet m (syncKey context) = some r)
    (hrm : r.ms365EventId = some e) (hra : r.asanaTaskId = some t) :
    (s.syncContextN o now context n m).1 = m ∧
    countMsCreates (s.syncContextN o now context n m).2 = 0 ∧
    countAsanaCreates (s.syncContextN o now context n m).2 = 0 ∧
    countMsUpdates (s.syncContextN o now context n m).2
      = n * (context.contributors.getD []).length ∧
    countAsanaUpdates (s.syncContextN o now context n m).2 = n := by
  induction n with
  | zero =>
      simp [SyncService.syncContextN, countMsCreates, countMsUpdates,
        countAsanaCreates, countAsanaUpdates]
  | succ k ih =>
      obtain ⟨ihm, ihc1, ihc2, ihu1, ihu2⟩ := ih
      have h1 := syncContext_update_run s o now context m r e t hms hat hget hrm hra
      have htr := updateTrace_counts context now e t
      have hfst : (s.syncContext o now context m).1 = m := by rw [h1]
      have hsnd : (s.syncContext o now context m).2
          = ((context.contributors.getD []).map fun c =>
              CallEvent.msUpdate c e (eventWindow context now).1
                (eventWindow context now).2)
            ++ [CallEvent.asanaUpdate t
                (context.contributors.getD []).head?] := by
        rw [h1]
      have hunfold1 : (s.syncContextN o now context (k + 1) m).1
          = (s.syncContextN o now context k
              (s.syncContext o now context m).1).1 := rfl
      have hunfold2 : (s.syncContextN o now context (k + 1) m).2
          = (s.syncContext o now context m).2
            ++ (s.syncContextN o now context k
                (s.syncContext o now context m).1).2 := rfl
      refine ⟨?_, ?_, ?_, ?_, ?_⟩
      · rw [hunfold1, hfst, ihm]
      · rw [hunfold2, countMsCreates_append, hsnd, hfst, ihc1, htr.1]
      · rw [hunfold2, countAsanaCreates_append, hsnd, hfst, ihc2, htr.2.2.1]
      · rw [hunfold2, countMsUpdates_append, hsnd, hfst, ihu1, htr.2.1]
        ring
      · rw [hunfold2, countAsanaUpdates_append, hsnd, hfst, ihu2, htr.2.2.2]
        omega

/-- When neither adapter has a stored id for the key and both gates are
on, one `syncContext` call issues one calendar create per contributor,
exactly one task create, and no updates. -/
theorem syncContext_create_counts (s : SyncService) (o : Oracle) (now : Int)
    (context : SyncContext) (m : SyncMap)
    (hms : msSyncGate s = true) (hat : asanaSyncGate s = true)
    (hmsid : msIdAt m (syncKey context) = none)
    (hasid : asanaIdAt m (syncKey context) = none) :
    countMsCreates (s.syncContext o now context m).2
        = (context.contributors.getD []).length ∧
    countMsUpdates (s.syncContext o now context m).2 = 0 ∧
    countAsanaCreates (s.syncContext o now context m).2 = 1 ∧
    countAsanaUpdates (s.syncContext o now context m).2 = 0 := by
  obtain ⟨hset1, hen1, hc, he⟩ := msGate_fields s hms
  obtain ⟨hset2, hen2, ha, ht⟩ := asanaGate_fields s hat
  have hg1 : (s.effectiveSettings.createCalendarEvents
      && s.ms365Service.isEnabled) = true := by simp [hset1, hen1]
  have hg2 : (s.effectiveSettings.createTasks
      && s.asanaService.isEnabled) = true := by simp [hset2, hen2]
  have hmsid2 : (syncMapGet m (syncKey context)).bind SyncRecord.ms365EventId
      = none := hmsid
  have hasid2 : (syncMapGet m (syncKey context)).bind SyncRecord.asanaTaskId
      = none := hasid
  have htrace : (s.syncContext o now context m).2
      = ((context.contributors.getD []).map fun c =>
          CallEvent.msCreate c (eventWindow context now).1
            (eventWindow context now).2)
        ++ [CallEvent.asanaCreate (context.contributors.getD []).head?] := by
    have hmstr := syncToMs_create_trace s o now context m hc he
    have hastr := syncToAsana_create_trace s o context
      (s.syncToMicrosoft365 o now context none m).1 ha ht
    unfold SyncService.syncContext SyncService.runAdapters
    simp [hmsid2, hasid2, hg1, hg2, hmstr, hastr]
  have hmap := counts_map_msCreate (context.contributors.getD [])
    (eventWindow context now).1 (eventWindow context now).2
  refine ⟨?_, ?_, ?_, ?_⟩
  · rw [htrace, countMsCreates_append, hmap.1]
    simp [countMsCreates, List.filter, isMsCreateEvent]
  · rw [htrace, countMsUpdates_append, hmap.2.1]
    simp [countMsUpdates, List.filter, isMsUpdateEvent]
  · rw [htrace, countAsanaCreates_append, hmap.2.2.1]
    simp [countAsanaCreates, List.filter, isAsanaCreateEvent]
  · rw [htrace, countAsanaUpdates_append, hmap.2.2.2]
    simp [countAsanaUpdates, List.filter, isAsanaUpdateEvent]

/-- When every calendar create call fails, the Microsoft 365 sync leaves
the map unchanged. -/
theorem syncToMs_fail_map (s : SyncService) (o : Oracle) (now : Int)
    (context : SyncContext) (m : SyncMap)
    (hfail : ∀ c, o.msCreateResult c = none) :
    (s.syncToMicrosoft365 o now context none m).1 = m := by
  unfold SyncService.syncToMicrosoft365
  cases he : optMs365Enabled s.config.microsoft365 with
  | false => simp [he]
  | true =>
      cases hcs : (context.contributors.getD []).isEmpty with
      | true => simp [he, hcs]
      | false =>
          simpa [he, hcs] using
            msLoop_fail_map s o context (eventWindow context now).1
              (eventWindow context now).2 (context.contributors.getD []) m hfail

/-- When the task create call fails, the Asana sync leaves the map
unchanged. -/
theorem syncToAsana_fail_map (s : SyncService) (o : Oracle)
    (context : SyncContext) (m : SyncMap)
    (hfail : o.asanaCreateResult = none) :
    (s.syncToAsana o context none m).1 = m := by
  have hstep : (s.asanaService.createTask o context
      (context.contributors.getD []).head?).1 = none := by
    simp [AsanaService.createTask, hfail, apply_ite]
  unfold SyncService.syncToAsana
  cases ha : optAsanaEnabled s.config.asana with
  | false => simp [ha]
  | true => simp [ha, hstep]

/-- With the Microsoft 365 gate off, the adapter phase issues no
Microsoft 365 calls and changes no stored `ms365EventId`. -/
theorem runAdapters_ms_off (s : SyncService) (o : Oracle) (now : Int)
    (context : SyncContext) (m : SyncMap) (k2 : String)
    (hg : msSyncGate s = false) :
    countMsCreates (s.runAdapters o now context m).2 = 0 ∧
    countMsUpdates (s.runAdapters o now context m).2 = 0 ∧
    msIdAt (s.runAdapters o now context m).1 k2 = msIdAt m k2 := by
  have hg2 : (s.effectiveSettings.createCalendarEvents
      && s.ms365Service.isEnabled) = false := hg
  unfold SyncService.runAdapters
  cases hga : (s.effectiveSettings.createTasks && s.asanaService.isEnabled) with
  | false => simp [hg2, hga, countMsCreates, countMsUpdates]
  | true =>
      have hno := syncToAsana_no_ms s o context
        ((syncMapGet m (syncKey context)).bind SyncRecord.asanaTaskId) m
      have hid := syncToAsana_msIdAt s o context
        ((syncMapGet m (syncKey context)).bind SyncRecord.asanaTaskId) m k2
      simp [hg2, hga, hno.1, hno.2, hid]

/-- With the Asana gate off, the adapter phase issues no Asana calls and
changes no stored `asanaTaskId`. -/
theorem runAdapters_asana_off (s : SyncService) (o : Oracle) (now : Int)
    (context : SyncContext) (m : SyncMap) (k2 : String)
    (hg : asanaSyncGate s = false) :
    countAsanaCreates (s.runAdapters o now context m).2 = 0 ∧
    countAsanaUpdates (s.runAdapters o now context m).2 = 0 ∧
    asanaIdAt (s.runAdapters o now context m).1 k2 = asanaIdAt m k2 := by
  have hg2 : (s.effectiveSettings.createTasks
      && s.asanaService.isEnabled) = false := hg
  unfold SyncService.runAdapters
  cases hgm : (s.effectiveSettings.createCalendarEvents
      && s.ms365Service.isEnabled) with
  | false => simp [hg2, hgm, countAsanaCreates, countAsanaUpdates]
  | true =>
      have hno := syncToMs_no_asana s o now context
        ((syncMapGet m (syncKey context)).bind SyncRecord.ms365EventId) m
      have hid := syncToMs_asanaIdAt s o now context
        ((syncMapGet m (syncKey context)).bind SyncRecord.ms365EventId) m k2
      simp [hg2, hgm, hno.1, hno.2, hid]

/-- With the Microsoft 365 gate on and no stored event id, the adapter
phase issues one calendar create per contributor and no calendar
updates. -/
theorem runAdapters_ms_create_counts (s : SyncService) (o : Oracle) (now : Int)
    (context : SyncContext) (m : SyncMap)
    (hms : msSyncGate s = true)
    (hmsid : msIdAt m (syncKey context) = none) :
    countMsCreates (s.runAdapters o now context m).2
      = (context.contributors.getD []).length ∧
    countMsUpdates (s.runAdapters o now context m).2 = 0 := by
  obtain ⟨hset1, hen1, hc, he⟩ := msGate_fields s hms
  have hg1 : (s.effectiveSettings.createCalendarEvents
      && s.ms365Service.isEnabled) = true := by simp [hset1, hen1]
  have hmsid2 : (syncMapGet m (syncKey context)).bind SyncRecord.ms365EventId
      = none := hmsid
  have htr := syncToMs_create_trace s o now context m hc he
  have hmap := counts_map_msCreate (context.contributors.getD [])
    (eventWindow context now).1 (eventWindow context now).2
  unfold SyncService.runAdapters
  cases hga : (s.effectiveSettings.createTasks && s.asanaService.isEnabled) with
  | false =>
      simp [hg1, hga, hmsid2, htr, countMsCreates_append, countMsUpdates_append,
        hmap.1, hmap.2.1]
  | true =>
      have hno := syncToAsana_no_ms s o context
        ((syncMapGet m (syncKey context)).bind SyncRecord.asanaTaskId)
        (s.syncToMicrosoft365 o now context none m).1
      simp [hg1, hga, hmsid2, htr, countMsCreates_append, countMsUpdates_append,
        hmap.1, hmap.2.1, hno.1, hno.2]

/-- With the Asana gate on and no stored task id, the adapter phase issues
exactly one task create and no task updates. -/
theorem runAdapters_asana_create_counts (s : SyncService) (o : Oracle)
    (now : Int) (context : SyncContext) (m : SyncMap)
    (hat : asanaSyncGate s = true)
    (hasid : asanaIdAt m (syncKey context) = none) :
    countAsanaCreates (s.runAdapters o now context m).2 = 1 ∧
    countAsanaUpdates (s.runAdapters o now context m).2 = 0 := by
  obtain ⟨hset2, hen2, ha, ht⟩ := asanaGate_fields s hat
  have hg2 : (s.effectiveSettings.createTasks
      && s.asanaService.isEnabled) = true := by simp [hset2, hen2]
  have hasid2 : (syncMapGet m (syncKey context)).bind SyncRecord.asanaTaskId
      = none := hasid
  have hone : countAsanaCreates
      [CallEvent.asanaCreate (context.contributors.getD []).head?] = 1 := by
    simp [countAsanaCreates, List.filter, isAsanaCreateEvent]
  have hzero : countAsanaUpdates
      [CallEvent.asanaCreate (context.contributors.getD []).head?] = 0 := by
    simp [countAsanaUpdates, List.filter, isAsanaUpdateEvent]
  unfold SyncService.runAdapters
  cases hgm : (s.effectiveSettings.createCalendarEvents
      && s.ms365Service.isEnabled) with
  | false =>
      have htr := syncToAsana_create_trace s o context m ha ht
      simp [hg2, hgm, hasid2, htr, countAsanaCreates_append,
        countAsanaUpdates_append, hone, hzero]
  | true =>
      have htr := syncToAsana_create_trace s o context
        (s.syncToMicrosoft365 o now context
          ((syncMapGet m (syncKey context)).bind SyncRecord.ms365EventId) m).1
        ha ht
      have hno := syncToMs_no_asana s o now context
        ((syncMapGet m (syncKey context)).bind SyncRecord.ms365EventId) m
      simp [hg2, hgm, hasid2, htr, countAsanaCreates_append,
        countAsanaUpdates_append, hno.1, hno.2, hone, hzero]

/-- With the Microsoft 365 gate on and a stored event id, the adapter
phase issues one calendar update per contributor and no calendar
creates. -/
theorem runAdapters_ms_update_counts (s : SyncService) (o : Oracle)
    (now : Int) (context : SyncContext) (m : SyncMap) (e : String)
    (hms : msSyncGate s = true)
    (hmsid : msIdAt m (syncKey context) = some e) :
    countMsUpdates (s.runAdapters o now context m).2
      = (context.contributors.getD []).length ∧
    countMsCreates (s.runAdapters o now context m).2 = 0 := by
  obtain ⟨hset1, hen1, hc, he⟩ := msGate_fields s hms
  have hg1 : (s.effectiveSettings.createCalendarEvents
      && s.ms365Service.isEnabled) = true := by simp [hset1, hen1]
  have hmsid2 : (syncMapGet m (syncKey context)).bind SyncRecord.ms365EventId
      = some e := hmsid
  have htr := syncToMs_update_eq s o now context e m hc he
  have hmap := counts_map_msUpdate (context.contributors.getD []) e
    (eventWindow context now).1 (eventWindow context now).2
  unfold SyncService.runAdapters
  cases hga : (s.effectiveSettings.createTasks && s.asanaService.isEnabled) with
  | false =>
      simp [hg1, hga, hmsid2, htr, countMsUpdates_append,
        countMsCreates_append, hmap.1, hmap.2.1]
  | true =>
      have hno := syncToAsana_no_ms s o context
        ((syncMapGet m (syncKey context)).bind SyncRecord.asanaTaskId) m
      simp [hg1, hga, hmsid2, htr, countMsUpdates_append,
        countMsCreates_append, hmap.1, hmap.2.1, hno.1, hno.2]

/-- With the Asana gate on and a stored task id, the adapter phase issues
exactly one task update and no task creates. -/
theorem runAdapters_asana_update_counts (s : SyncService) (o : Oracle)
    (now : Int) (context : SyncContext) (m : SyncMap) (t : String)
    (hat : asanaSyncGate s = true)
    (hasid : asanaIdAt m (syncKey context) = some t) :
    countAsanaUpdates (s.runAdapters o now context m).2 = 1 ∧
    countAsanaCreates (s.runAdapters o now context m).2 = 0 := by
  obtain ⟨hset2, hen2, ha, ht⟩ := asanaGate_fields s hat
  have hg2 : (s.effectiveSettings.createTasks
      && s.asanaService.isEnabled) = true := by simp [hset2, hen2]
  have hasid2 : (syncMapGet m (syncKey context)).bind SyncRecord.asanaTaskId
      = some t := hasid
  have hone : countAsanaUpdates
      [CallEvent.asanaUpdate t (context.contributors.getD []).head?] = 1 := by
    simp [countAsanaUpdates, List.filter, isAsanaUpdateEvent]
  have hzero : countAsanaCreates
      [CallEvent.asanaUpdate t (context.contributors.getD []).head?] = 0 := by
    simp [countAsanaCreates, List.filter, isAsanaCreateEvent]
  unfold SyncService.runAdapters
  cases hgm : (s.effectiveSettings.createCalendarEvents
      && s.ms365Service.isEnabled) with
  | false =>
      have htr := syncToAsana_update_eq s o context t m ha ht
      simp [hg2, hgm, hasid2, htr, countAsanaUpdates_append,
        countAsanaCreates_append, hone, hzero]
  | true =>
      have htr := syncToAsana_update_eq s o context t
        (s.syncToMicrosoft365 o now context
          ((syncMapGet m (syncKey context)).bind SyncRecord.ms365EventId) m).1
        ha ht
      have hno := syncToMs_no_asana s o now context
        ((syncMapGet m (syncKey context)).bind SyncRecord.ms365EventId) m
      simp [hg2, hgm, hasid2, htr, countAsanaUpdates_append,
        countAsanaCreates_append, hno.1, hno.2, hone, hzero]

/-- With no stored event id and every calendar create failing, the adapter
phase leaves the stored `ms365EventId` absent. -/
theorem runAdapters_msIdAt_none (s : SyncService) (o : Oracle) (now : Int)
    (context : SyncContext) (m : SyncMap)
    (hmsid : msIdAt m (syncKey context) = none)
    (hfail : ∀ c, o.msCreateResult c = none) :
    msIdAt (s.runAdapters o now context m).1 (syncKey context) = none := by
  have hmsid2 : (syncMapGet m (syncKey context)).bind SyncRecord.ms365EventId
      = none := hmsid
  unfold SyncService.runAdapters
  cases hgm : (s.effectiveSettings.createCalendarEvents
      && s.ms365Service.isEnabled) with
  | false =>
      cases hga : (s.effectiveSettings.createTasks
          && s.asanaService.isEnabled) with
      | false => simpa [hgm, hga] using hmsid
      | true =>
          have hid := syncToAsana_msIdAt s o context
            ((syncMapGet m (syncKey context)).bind SyncRecord.asanaTaskId) m
            (syncKey context)
          simp [hgm, hga, hid]
          exact hmsid
  | true =>
      have hms1 : (s.syncToMicrosoft365 o now context none m).1 = m :=
        syncToMs_fail_map s o now context m hfail
      cases hga : (s.effectiveSettings.createTasks
          && s.asanaService.isEnabled) with
      | false =>
          simp [hgm, hga, hmsid2, hms1]
          exact hmsid
      | true =>
          have hid := syncToAsana_msIdAt s o context
            ((syncMapGet m (syncKey context)).bind SyncRecord.asanaTaskId) m
            (syncKey context)
          simp [hgm, hga, hmsid2, hms1, hid]
          exact hmsid

/-- With no stored task id and the task create failing, the adapter phase
leaves the stored `asanaTaskId` absent. -/
theorem runAdapters_asanaIdAt_none (s : SyncService) (o : Oracle) (now : Int)
    (context : SyncContext) (m : SyncMap)
    (hasid : asanaIdAt m (syncKey context) = none)
    (hfail : o.asanaCreateResult = none) :
    asanaIdAt (s.runAdapters o now context m).1 (syncKey context) = none := by
  have hasid2 : (syncMapGet m (syncKey context)).bind SyncRecord.asanaTaskId
      = none := hasid
  unfold SyncService.runAdapters
  cases hgm : (s.effectiveSettings.createCalendarEvents
      && s.ms365Service.isEnabled) with
  | false =>
      cases hga : (s.effectiveSettings.createTasks
          && s.asanaService.isEnabled) with
      | false => simpa [hgm, hga] using hasid
      | true =>
          have has1 : (s.syncToAsana o context none m).1 = m :=
            syncToAsana_fail_map s o context m hfail
          simp [hgm, hga, hasid2, has1]
          exact hasid
  | true =>
      have hmsid3 := syncToMs_asanaIdAt s o now context
        ((syncMapGet m (syncKey context)).bind SyncRecord.ms365EventId) m
        (syncKey context)
      cases hga : (s.effectiveSettings.createTasks
          && s.asanaService.isEnabled) with
      | false =>
          simp [hgm, hga, hmsid3]
          exact hasid
      | true =>
          have has1 : (s.syncToAsana o context none
              (s.syncToMicrosoft365 o now context
                ((syncMapGet m (syncKey context)).bind SyncRecord.ms365EventId)
                m).1).1
              = (s.syncToMicrosoft365 o now context
                ((syncMapGet m (syncKey context)).bind SyncRecord.ms365EventId)
                m).1 :=
            syncToAsana_fail_map s o context _ hfail
          simp [hgm, hga, hasid2, has1, hmsid3]
          exact hasid

/-- The final map write preserves an unchanged stored `ms365EventId`. -/
theorem syncContext_msIdAt_frame (s : SyncService) (o : Oracle) (now : Int)
    (context : SyncContext) (m : SyncMap)
    (hrun : msIdAt (s.runAdapters o now context m).1 (syncKey context)
      = msIdAt m (syncKey context)) :
    msIdAt (s.syncContext o now context m).1 (syncKey context)
      = msIdAt m (syncKey context) := by
  cases hex : syncMapGet m (syncKey context) with
  | none =>
      simp [msIdAt, syncContext_get_final_absent s o now context m hex, hex]
  | some r =>
      have hsome : (syncMapGet m (syncKey context)).isSome = true := by
        simp [hex]
      obtain ⟨r2, hr2⟩ := Option.isSome_iff_exists.mp
        (runAdapters_isSome s o now context m (syncKey context) hsome)
      have hfin := syncContext_get_final_present s o now context m r hex
      have hL : msIdAt (s.syncContext o now context m).1 (syncKey context)
          = r2.ms365EventId := by simp [msIdAt, hfin, hr2]
      have hR : msIdAt m (syncKey context) = r2.ms365EventId := by
        rw [← hrun]
        simp [msIdAt, hr2]
      rw [hL, hR]

/-- The final map write preserves an unchanged stored `asanaTaskId`. -/
theorem syncContext_asanaIdAt_frame (s : SyncService) (o : Oracle) (now : Int)
    (context : SyncContext) (m : SyncMap)
    (hrun : asanaIdAt (s.runAdapters o now context m).1 (syncKey context)
      = asanaIdAt m (syncKey context)) :
    asanaIdAt (s.syncContext o now context m).1 (syncKey context)
      = asanaIdAt m (syncKey context) := by
  cases hex : syncMapGet m (syncKey context) with
  | none =>
      simp [asanaIdAt, syncContext_get_final_absent s o now context m hex, hex]
  | some r =>
      have hsome : (syncMapGet m (syncKey context)).isSome = true := by
        simp [hex]
      obtain ⟨r2, hr2⟩ := Option.isSome_iff_exists.mp
        (runAdapters_isSome s o now context m (syncKey context) hsome)
      have hfin := syncContext_get_final_present s o now context m r hex
      have hL : asanaIdAt (s.syncContext o now context m).1 (syncKey context)
          = r2.asanaTaskId := by simp [asanaIdAt, hfin, hr2]
      have hR : asanaIdAt m (syncKey context) = r2.asanaTaskId := by
        rw [← hrun]
        simp [asanaIdAt, hr2]
      rw [hL, hR]

/-- When the adapter phase ends with no stored `ms365EventId`, the final
map entry also has none. -/
theorem syncContext_msIdAt_none (s : SyncService) (o : Oracle) (now : Int)
    (context : SyncContext) (m : SyncMap)
    (hrun : msIdAt (s.runAdapters o now context m).1 (syncKey context) = none) :
    msIdAt (s.syncContext o now context m).1 (syncKey context) = none := by
  cases hex : syncMapGet m (syncKey context) with
  | none => simp [msIdAt, syncContext_get_final_absent s o now context m hex]
  | some r =>
      have hsome : (syncMapGet m (syncKey context)).isSome = true := by
        simp [hex]
      obtain ⟨r2, hr2⟩ := Option.isSome_iff_exists.mp
        (runAdapters_isSome s o now context m (syncKey context) hsome)
      have h2 : r2.ms365EventId = none := by
        have h3 := hrun
        simpa [msIdAt, hr2] using h3
      simp [msIdAt, syncContext_get_final_present s o now context m r hex,
        hr2, h2]

/-- When the adapter phase ends with no stored `asanaTaskId`, the final
map entry also has none. -/
theorem syncContext_asanaIdAt_none (s : SyncService) (o : Oracle) (now : Int)
    (context : SyncContext) (m : SyncMap)
    (hrun : asanaIdAt (s.runAdapters o now context m).1 (syncKey context)
      = none) :
    asanaIdAt (s.syncContext o now context m).1 (syncKey context) = none := by
  cases hex : syncMapGet m (syncKey context) with
  | none => simp [asanaIdAt, syncContext_get_final_absent s o now context m hex]
  | some r =>
      have hsome : (syncMapGet m (syncKey context)).isSome = true := by
        simp [hex]
      obtain ⟨r2, hr2⟩ := Option.isSome_iff_exists.mp
        (runAdapters_isSome s o now context m (syncKey context) hsome)
      have h2 : r2.asanaTaskId = none := by
        have h3 := hrun
        simpa [asanaIdAt, hr2] using h3
      simp [asanaIdAt, syncContext_get_final_present s o now context m r hex,
        hr2, h2]

/-- C1: with both adapters enabled, a fresh key, one contributor and a
calendar create call that returns an id, the first `syncContext` call
issues the create, yet afterwards the sync map binds the key to a record
with both id fields absent — the final write of `sync.service.ts` lines
38-43 discards the id that line 90 stored — so a second `syncContext`
call for the same key issues a create again and no update, contradicting
the claim that the map holds the returned id after reconcile. -/
theorem c1_create_id_lost :
    countMsCreates (demoService.syncContext demoOracle 0 demoCtx []).2 = 1 ∧
    syncMapGet (demoService.syncContext demoOracle 0 demoCtx []).1
      (syncKey demoCtx) = some {} ∧
    countMsCreates (demoService.syncContext demoOracle 0 demoCtx
      (demoService.syncContext demoOracle 0 demoCtx []).1).2 = 1 ∧
    countMsUpdates (demoService.syncContext demoOracle 0 demoCtx
      (demoService.syncContext demoOracle 0 demoCtx []).1).2 = 0 := by
  decide

/-- C2 counterexample: with two contributors, a fresh key and both
adapters enabled, a single `syncContext` call issues two calendar create
calls, not exactly one per enabled adapter. -/
theorem c2_counterexample :
    countMsCreates (demoService.syncContext demoOracle 0 demoCtxTwo []).2
      = 2 := by
  decide

/-- C2 (amended): for a key with no stored ids and both gates on, one
`syncContext` call issues exactly one task create regardless of the
contributor list, and one calendar create per contributor — none when the
contributor list is empty, and as many as there are contributors
otherwise — with no update calls. -/
theorem c2_creates_per_adapter (s : SyncService) (o : Oracle) (now : Int)
    (context : SyncContext) (m : SyncMap)
    (hms : msSyncGate s = true) (hat : asanaSyncGate s = true)
    (hmsid : msIdAt m (syncKey context) = none)
    (hasid : asanaIdAt m (syncKey context) = none) :
    countAsanaCreates (s.syncContext o now context m).2 = 1 ∧
    countAsanaUpdates (s.syncContext o now context m).2 = 0 ∧
    countMsCreates (s.syncContext o now context m).2
      = (context.contributors.getD []).length ∧
    countMsUpdates (s.syncContext o now context m).2 = 0 := by
  obtain ⟨h1, h2, h3, h4⟩ :=
    syncContext_create_counts s o now context m hms hat hmsid hasid
  exact ⟨h3, h4, h1, h2⟩

/-- C2 witness: the amended claim evaluated at a concrete enabled service,
fresh key and single contributor. -/
theorem c2_witness :
    countAsanaCreates (demoService.syncContext demoOracle 0 demoCtx []).2
        = 1 ∧
    countAsanaUpdates (demoService.syncContext demoOracle 0 demoCtx []).2
        = 0 ∧
    countMsCreates (demoService.syncContext demoOracle 0 demoCtx []).2
        = (demoCtx.contributors.getD []).length ∧
    countMsUpdates (demoService.syncContext demoOracle 0 demoCtx []).2 = 0 :=
  c2_creates_per_adapter demoService demoOracle 0 demoCtx []
    (by decide) (by decide) rfl rfl

/-- C3 counterexample: with two contributors and both ids already stored,
one `syncContext` call (N = 1) issues two calendar update calls, not
exactly one per call. -/
theorem c3_counterexample :
    countMsUpdates (demoService.syncContext demoOracle 0 demoCtxTwo
      [(syncKey demoCtxTwo, demoRecordFull)]).2 = 2 := by
  decide

/-- C3 (amended): for a key whose record already stores both remote ids
and with both gates on, N `syncContext` calls with the same desired state
issue zero create calls for either adapter, exactly N task updates, and N
calendar updates per contributor (N times the contributor-list length),
leaving the map unchanged. -/
theorem c3_idempotent_updates (s : SyncService) (o : Oracle) (now : Int)
    (context : SyncContext) (m : SyncMap) (r : SyncRecord) (e t : String)
    (n : Nat)
    (hms : msSyncGate s = true) (hat : asanaSyncGate s = true)
    (hget : syncMapGet m (syncKey context) = some r)
    (hrm : r.ms365EventId = some e) (hra : r.asanaTaskId = some t) :
    countMsCreates (s.syncContextN o now context n m).2 = 0 ∧
    countAsanaCreates (s.syncContextN o now context n m).2 = 0 ∧
    countMsUpdates (s.syncContextN o now context n m).2
      = n * (context.contributors.getD []).length ∧
    countAsanaUpdates (s.syncContextN o now context n m).2 = n ∧
    (s.syncContextN o now context n m).1 = m := by
  obtain ⟨h1, h2, h3, h4, h5⟩ :=
    syncContextN_update_case s o now context m r e t n hms hat hget hrm hra
  exact ⟨h2, h3, h4, h5, h1⟩

/-- C3 witness: the amended claim evaluated at a concrete enabled service,
a stored record with both ids, one contributor and N = 3. -/
theorem c3_witness :
    countMsCreates (demoService.syncContextN demoOracle 0 demoCtx 3
        demoFullMap).2 = 0 ∧
    countAsanaCreates (demoService.syncContextN demoOracle 0 demoCtx 3
        demoFullMap).2 = 0 ∧
    countMsUpdates (demoService.syncContextN demoOracle 0 demoCtx 3
        demoFullMap).2 = 3 * (demoCtx.contributors.getD []).length ∧
    countAsanaUpdates (demoService.syncContextN demoOracle 0 demoCtx 3
        demoFullMap).2 = 3 ∧
    (demoService.syncContextN demoOracle 0 demoCtx 3 demoFullMap).1
      = demoFullMap :=
  c3_idempotent_updates demoService demoOracle 0 demoCtx demoFullMap
    demoRecordFull "ev-0" "task-0" 3 (by decide) (by decide) (by decide)
    rfl rfl

/-- C4: an adapter whose gate is off (settings toggle off or `isEnabled()`
false) receives no create and no update call from `syncContext`, and its
id field in the map entry for the key is unchanged, for every desired
state and map. -/
theorem c4_disabled_adapter_inert (s : SyncService) (o : Oracle) (now : Int)
    (context : SyncContext) (m : SyncMap) :
    (msSyncGate s = false →
      countMsCreates (s.syncContext o now context m).2 = 0 ∧
      countMsUpdates (s.syncContext o now context m).2 = 0 ∧
      msIdAt (s.syncContext o now context m).1 (syncKey context)
        = msIdAt m (syncKey context)) ∧
    (asanaSyncGate s = false →
      countAsanaCreates (s.syncContext o now context m).2 = 0 ∧
      countAsanaUpdates (s.syncContext o now context m).2 = 0 ∧
      asanaIdAt (s.syncContext o now context m).1 (syncKey context)
        = asanaIdAt m (syncKey context)) := by
  constructor
  · intro hg
    obtain ⟨h1, h2, h3⟩ :=
      runAdapters_ms_off s o now context m (syncKey context) hg
    exact ⟨by rw [syncContext_trace]; exact h1,
      by rw [syncContext_trace]; exact h2,
      syncContext_msIdAt_frame s o now context m h3⟩
  · intro hg
    obtain ⟨h1, h2, h3⟩ :=
      runAdapters_asana_off s o now context m (syncKey context) hg
    exact ⟨by rw [syncContext_trace]; exact h1,
      by rw [syncContext_trace]; exact h2,
      syncContext_asanaIdAt_frame s o now context m h3⟩

/-- C4 witness: the claim evaluated at a service with both adapters
disabled. -/
theorem c4_witness :
    countMsCreates (demoOffService.syncContext demoOracle 0 demoCtx []).2
        = 0 ∧
    countMsUpdates (demoOffService.syncContext demoOracle 0 demoCtx []).2
        = 0 ∧
    countAsanaCreates (demoOffService.syncContext demoOracle 0 demoCtx []).2
        = 0 ∧
    countAsanaUpdates (demoOffService.syncContext demoOracle 0 demoCtx []).2
        = 0 :=
  ⟨((c4_disabled_adapter_inert demoOffService demoOracle 0 demoCtx []).1
      (by decide)).1,
   ((c4_disabled_adapter_inert demoOffService demoOracle 0 demoCtx []).1
      (by decide)).2.1,
   ((c4_disabled_adapter_inert demoOffService demoOracle 0 demoCtx []).2
      (by decide)).1,
   ((c4_disabled_adapter_inert demoOffService demoOracle 0 demoCtx []).2
      (by decide)).2.1⟩

/-- C5: when an adapter has no stored id for the key and its create call
returns none, `syncContext` leaves that adapter's id field unset, and the
next `syncContext` call for the same key issues create calls again (one
per contributor for the calendar adapter, one for the task adapter) and
no update calls. -/
theorem c5_failed_create_leaves_map (s : SyncService) (o : Oracle) (now : Int)
    (context : SyncContext) (m : SyncMap) :
    (msSyncGate s = true → msIdAt m (syncKey context) = none →
      (∀ c, o.msCreateResult c = none) →
      msIdAt (s.syncContext o now context m).1 (syncKey context) = none ∧
      countMsCreates (s.syncContext o now context
          (s.syncContext o now context m).1).2
        = (context.contributors.getD []).length ∧
      countMsUpdates (s.syncContext o now context
          (s.syncContext o now context m).1).2 = 0) ∧
    (asanaSyncGate s = true → asanaIdAt m (syncKey context) = none →
      o.asanaCreateResult = none →
      asanaIdAt (s.syncContext o now context m).1 (syncKey context) = none ∧
      countAsanaCreates (s.syncContext o now context
          (s.syncContext o now context m).1).2 = 1 ∧
      countAsanaUpdates (s.syncContext o now context
          (s.syncContext o now context m).1).2 = 0) := by
  constructor
  · intro hg hid hfail
    have hnone : msIdAt (s.syncContext o now context m).1 (syncKey context)
        = none :=
      syncContext_msIdAt_none s o now context m
        (runAdapters_msIdAt_none s o now context m hid hfail)
    have hcounts := runAdapters_ms_create_counts s o now context
      (s.syncContext o now context m).1 hg hnone
    exact ⟨hnone, by rw [syncContext_trace]; exact hcounts.1,
      by rw [syncContext_trace]; exact hcounts.2⟩
  · intro hg hid hfail
    have hnone : asanaIdAt (s.syncContext o now context m).1 (syncKey context)
        = none :=
      syncContext_asanaIdAt_none s o now context m
        (runAdapters_asanaIdAt_none s o now context m hid hfail)
    have hcounts := runAdapters_asana_create_counts s o now context
      (s.syncContext o now context m).1 hg hnone
    exact ⟨hnone, by rw [syncContext_trace]; exact hcounts.1,
      by rw [syncContext_trace]; exact hcounts.2⟩

/-- C5 witness: the claim evaluated with every create call failing on a
fresh key. -/
theorem c5_witness :
    msIdAt (demoService.syncContext demoOracleAllFail 0 demoCtx []).1
        (syncKey demoCtx) = none ∧
    asanaIdAt (demoService.syncContext demoOracleAllFail 0 demoCtx []).1
        (syncKey demoCtx) = none ∧
    countMsCreates (demoService.syncContext demoOracleAllFail 0 demoCtx
        (demoService.syncContext demoOracleAllFail 0 demoCtx []).1).2
      = (demoCtx.contributors.getD []).length ∧
    countAsanaCreates (demoService.syncContext demoOracleAllFail 0 demoCtx
        (demoService.syncContext demoOracleAllFail 0 demoCtx []).1).2 = 1 :=
  ⟨((c5_failed_create_leaves_map demoService demoOracleAllFail 0 demoCtx []).1
      (by decide) rfl (fun _ => rfl)).1,
   ((c5_failed_create_leaves_map demoService demoOracleAllFail 0 demoCtx []).2
      (by decide) rfl rfl).1,
   ((c5_failed_create_leaves_map demoService demoOracleAllFail 0 demoCtx []).1
      (by decide) rfl (fun _ => rfl)).2.1,
   ((c5_failed_create_leaves_map demoService demoOracleAllFail 0 demoCtx []).2
      (by decide) rfl rfl).2.1⟩

/-- C6: with both adapters enabled and a fresh key, when the calendar
create fails the task create is still issued within the same `syncContext`
call and returns an id, but after the call completes the map binds the key
to a record with both id fields absent: the task id is not retained, as
the final write of `sync.service.ts` lines 38-43 discards it. -/
theorem c6_isolation_but_id_lost :
    countMsCreates (demoService.syncContext demoOracleMsFail 0 demoCtx []).2
        = 1 ∧
    countAsanaCreates
        (demoService.syncContext demoOracleMsFail 0 demoCtx []).2 = 1 ∧
    demoOracleMsFail.asanaCreateResult = some "task-1" ∧
    syncMapGet (demoService.syncContext demoOracleMsFail 0 demoCtx []).1
      (syncKey demoCtx) = some {} := by
  decide

/-- C7: the adapter update operations return true exactly when the service
is usable and the network call succeeds (false on any failure), never
issue a create call, and the reconciler keeps a stored id in the map
across `syncContext`, whose trace then consists only of updates targeting
the stored ids — so subsequent notifications retry the same update. -/
theorem c7_update_contract :
    (∀ (sv : Ms365Service) (o : Oracle) (u e : String)
        (context : SyncContext) (st et : Int),
      (sv.updateCalendarEvent o u e context st et).1
          = (sv.clientReady && optMs365Enabled sv.config
              && o.msUpdateResult u e) ∧
      countMsCreates (sv.updateCalendarEvent o u e context st et).2 = 0 ∧
      countAsanaCreates (sv.updateCalendarEvent o u e context st et).2 = 0) ∧
    (∀ (sv : AsanaService) (o : Oracle) (t : String)
        (context : SyncContext) (a : Option String),
      (sv.updateTask o t context a).1
          = (optAsanaEnabled sv.config && !(optAsanaToken sv.config == "")
              && o.asanaUpdateResult t) ∧
      countAsanaCreates (sv.updateTask o t context a).2 = 0 ∧
      countMsCreates (sv.updateTask o t context a).2 = 0) ∧
    (∀ (s : SyncService) (o : Oracle) (now : Int) (context : SyncContext)
        (m : SyncMap) (r : SyncRecord) (e t : String),
      msSyncGate s = true → asanaSyncGate s = true →
      syncMapGet m (syncKey context) = some r →
      r.ms365EventId = some e → r.asanaTaskId = some t →
      (s.syncContext o now context m).1 = m ∧
      msIdAt (s.syncContext o now context m).1 (syncKey context) = some e ∧
      asanaIdAt (s.syncContext o now context m).1 (syncKey context)
        = some t ∧
      (s.syncContext o now context m).2
        = ((context.contributors.getD []).map fun c =>
            CallEvent.msUpdate c e (eventWindow context now).1
              (eventWindow context now).2)
          ++ [CallEvent.asanaUpdate t
              (context.contributors.getD []).head?]) := by
  refine ⟨?_, ?_, ?_⟩
  · intro sv o u e context st et
    cases hc : sv.clientReady <;> cases he : optMs365Enabled sv.config <;>
      simp [Ms365Service.updateCalendarEvent, hc, he, countMsCreates,
        countAsanaCreates, List.filter, isMsCreateEvent, isAsanaCreateEvent]
  · intro sv o t context a
    cases ha : optAsanaEnabled sv.config <;>
      cases ht : (optAsanaToken sv.config == "") <;>
      simp [AsanaService.updateTask, ha, ht, countMsCreates,
        countAsanaCreates, List.filter, isMsCreateEvent, isAsanaCreateEvent]
  · intro s o now context m r e t hms hat hget hrm hra
    have hrun := syncContext_update_run s o now context m r e t hms hat
      hget hrm hra
    have hfst : (s.syncContext o now context m).1 = m := by rw [hrun]
    refine ⟨hfst, ?_, ?_, by rw [hrun]⟩
    · rw [hfst]
      simp [msIdAt, hget, hrm]
    · rw [hfst]
      simp [asanaIdAt, hget, hra]

/-- C7 witness: one `syncContext` call over a stored record with both ids
while every update call fails: the map is unchanged, the ids are kept, and
the trace is exactly the two targeted updates. -/
theorem c7_witness :
    (demoService.syncContext demoOracleAllFail 0 demoCtx demoFullMap).1
        = demoFullMap ∧
    msIdAt (demoService.syncContext demoOracleAllFail 0 demoCtx
        demoFullMap).1 (syncKey demoCtx) = some "ev-0" ∧
    asanaIdAt (demoService.syncContext demoOracleAllFail 0 demoCtx
        demoFullMap).1 (syncKey demoCtx) = some "task-0" ∧
    (demoService.syncContext demoOracleAllFail 0 demoCtx demoFullMap).2
      = ((demoCtx.contributors.getD []).map fun c =>
          CallEvent.msUpdate c "ev-0" (eventWindow demoCtx 0).1
            (eventWindow demoCtx 0).2)
        ++ [CallEvent.asanaUpdate "task-0"
            (demoCtx.contributors.getD []).head?] :=
  c7_update_contract.2.2 demoService demoOracleAllFail 0 demoCtx demoFullMap
    demoRecordFull "ev-0" "task-0" (by decide) (by decide) (by decide) rfl rfl

/-- C8: the calendar event window is dueAt minus 30 minutes to dueAt plus
30 minutes when a due date is present, else a one-hour slot starting 24
hours from now (all in ms, UTC); the due date 2025-01-10T12:00:00Z
(1736510400000 ms) yields the window 11:30 to 12:30 UTC (1736508600000 to
1736512200000 ms), and the calendar create call issued by `syncContext`
for that scenario carries exactly this window. -/
theorem c8_event_window (context : SyncContext) (now due : Int) :
    (context.dueDate = some due →
      eventWindow context now = (due - 1800000, due + 1800000)) ∧
    (context.dueDate = none →
      eventWindow context now
        = (now + 86400000, now + 86400000 + 3600000)) ∧
    eventWindow demoDueCtx 0 = (1736508600000, 1736512200000) ∧
    (demoService.syncContext demoOracle 0 demoDueCtx []).2
      = [CallEvent.msCreate "alice@example.com" 1736508600000 1736512200000,
         CallEvent.asanaCreate (some "alice@example.com")] := by
  refine ⟨?_, ?_, by decide, by decide⟩
  · intro h
    simp [eventWindow, h]
  · intro h
    simp [eventWindow, h]

/-- C8 witness: the window rules evaluated at the concrete due date and at
a context with no due date. -/
theorem c8_witness :
    eventWindow demoDueCtx 0
        = (1736510400000 - 1800000, 1736510400000 + 1800000) ∧
    eventWindow demoBareCtx 5 = (5 + 86400000, 5 + 86400000 + 3600000) :=
  ⟨(c8_event_window demoDueCtx 0 1736510400000).1 rfl,
   (c8_event_window demoBareCtx 5 1736510400000).2.1 rfl⟩

/-- C9 counterexample: with both adapters enabled, a fresh key and every
enrichable field absent (no contributors, workflow step or due date),
`syncContext` issues no calendar call at all — the calendar sync is
skipped rather than run with partial data — while the task create is
still issued. -/
theorem c9_counterexample :
    countMsCreates (demoService.syncContext demoOracle 0 demoBareCtx []).2
        = 0 ∧
    countMsUpdates (demoService.syncContext demoOracle 0 demoBareCtx []).2
        = 0 ∧
    countAsanaCreates
        (demoService.syncContext demoOracle 0 demoBareCtx []).2 = 1 := by
  decide

/-- C9 (amended): with workflow step and due date absent, `syncContext`
still proceeds with the partial data on both reconcile paths: the task
adapter receives exactly one call — a create when no task id is stored, an
update when one is — and the calendar adapter receives one call per
contributor, creates or updates according to the stored event id; hence
the calendar adapter is skipped entirely (no calls, on either path) when
the contributor list is absent. -/
theorem c9_partial_data (s : SyncService) (o : Oracle) (now : Int)
    (context : SyncContext) (m : SyncMap)
    (hms : msSyncGate s = true) (hat : asanaSyncGate s = true)
    (_hw : context.workflowStep = none) (_hd : context.dueDate = none) :
    (asanaIdAt m (syncKey context) = none →
      countAsanaCreates (s.syncContext o now context m).2 = 1 ∧
      countAsanaUpdates (s.syncContext o now context m).2 = 0) ∧
    (∀ t, asanaIdAt m (syncKey context) = some t →
      countAsanaUpdates (s.syncContext o now context m).2 = 1 ∧
      countAsanaCreates (s.syncContext o now context m).2 = 0) ∧
    (msIdAt m (syncKey context) = none →
      countMsCreates (s.syncContext o now context m).2
        = (context.contributors.getD []).length ∧
      countMsUpdates (s.syncContext o now context m).2 = 0) ∧
    (∀ e, msIdAt m (syncKey context) = some e →
      countMsUpdates (s.syncContext o now context m).2
        = (context.contributors.getD []).length ∧
      countMsCreates (s.syncContext o now context m).2 = 0) ∧
    (context.contributors = none →
      countMsCreates (s.syncContext o now context m).2 = 0 ∧
      countMsUpdates (s.syncContext o now context m).2 = 0) := by
  refine ⟨?_, ?_, ?_, ?_, ?_⟩
  · intro hid
    have h := runAdapters_asana_create_counts s o now context m hat hid
    exact ⟨by rw [syncContext_trace]; exact h.1,
      by rw [syncContext_trace]; exact h.2⟩
  · intro t hid
    have h := runAdapters_asana_update_counts s o now context m t hat hid
    exact ⟨by rw [syncContext_trace]; exact h.1,
      by rw [syncContext_trace]; exact h.2⟩
  · intro hid
    have h := runAdapters_ms_create_counts s o now context m hms hid
    exact ⟨by rw [syncContext_trace]; exact h.1,
      by rw [syncContext_trace]; exact h.2⟩
  · intro e hid
    have h := runAdapters_ms_update_counts s o now context m e hms hid
    exact ⟨by rw [syncContext_trace]; exact h.1,
      by rw [syncContext_trace]; exact h.2⟩
  · intro hcn
    have hlen : (context.contributors.getD []).length = 0 := by
      rw [hcn]
      rfl
    cases hid : msIdAt m (syncKey context) with
    | none =>
        have h := runAdapters_ms_create_counts s o now context m hms hid
        exact ⟨by rw [syncContext_trace, h.1]; exact hlen,
          by rw [syncContext_trace]; exact h.2⟩
    | some e =>
        have h := runAdapters_ms_update_counts s o now context m e hms hid
        exact ⟨by rw [syncContext_trace]; exact h.2,
          by rw [syncContext_trace, h.1]; exact hlen⟩

/-- C9 witness: the amended claim evaluated at a context with every
enrichable field absent, on both the fresh-key path and the stored-id
path. -/
theorem c9_witness :
    countAsanaCreates (demoService.syncContext demoOracle 0 demoBareCtx []).2
        = 1 ∧
    countMsCreates (demoService.syncContext demoOracle 0 demoBareCtx []).2
        = 0 ∧
    countMsUpdates (demoService.syncContext demoOracle 0 demoBareCtx []).2
        = 0 ∧
    countAsanaUpdates (demoService.syncContext demoOracle 0 demoBareCtx
        [(syncKey demoBareCtx, demoRecordFull)]).2 = 1 ∧
    countMsCreates (demoService.syncContext demoOracle 0 demoBareCtx
        [(syncKey demoBareCtx, demoRecordFull)]).2 = 0 :=
  ⟨((c9_partial_data demoService demoOracle 0 demoBareCtx []
      (by decide) (by decide) rfl rfl).1 rfl).1,
   ((c9_partial_data demoService demoOracle 0 demoBareCtx []
      (by decide) (by decide) rfl rfl).2.2.2.2 rfl).1,
   ((c9_partial_data demoService demoOracle 0 demoBareCtx []
      (by decide) (by decide) rfl rfl).2.2.2.2 rfl).2,
   ((c9_partial_data demoService demoOracle 0 demoBareCtx
      [(syncKey demoBareCtx, demoRecordFull)]
      (by decide) (by decide) rfl rfl).2.1 "task-0" (by decide)).1,
   ((c9_partial_data demoService demoOracle 0 demoBareCtx
      [(syncKey demoBareCtx, demoRecordFull)]
      (by decide) (by decide) rfl rfl).2.2.2.2 rfl).1⟩

/-- C10 counterexample: when a record with no ids is already bound to the
key at the start of the call (the state a first call leaves behind), a
successful create during the call IS visible in the final map entry: the
entry's fields do not equal the values the bound record's fields had at
the start of the call. -/
theorem c10_counterexample :
    syncMapGet demoEmptyRecordMap (syncKey demoCtx) = some {} ∧
    syncMapGet (demoService.syncContext demoOracle 0 demoCtx
        demoEmptyRecordMap).1 (syncKey demoCtx)
      = some { ms365EventId := some "ev-1", asanaTaskId := some "task-1" } := by
  decide

/-- C10 (amended): after `syncContext` the map always contains an entry
for the key; when the key was unbound at the start of the call the entry
has both id fields absent even if create calls succeeded during the call;
when a record was bound at the start, the final entry is instead a copy of
that record as it stands at the end of the adapter phase — the bound
object is mutated in place, so ids created during the call persist. -/
theorem c10_final_write (s : SyncService) (o : Oracle) (now : Int)
    (context : SyncContext) (m : SyncMap) :
    (syncMapGet (s.syncContext o now context m).1 (syncKey context)).isSome
        = true ∧
    (syncMapGet m (syncKey context) = none →
      syncMapGet (s.syncContext o now context m).1 (syncKey context)
        = some {}) ∧
    ((syncMapGet m (syncKey context)).isSome = true →
      syncMapGet (s.syncContext o now context m).1 (syncKey context)
        = some ((syncMapGet (s.runAdapters o now context m).1
            (syncKey context)).getD {})) := by
  refine ⟨?_, ?_, ?_⟩
  · cases hex : syncMapGet m (syncKey context) with
    | none => rw [syncContext_get_final_absent s o now context m hex]; rfl
    | some r => rw [syncContext_get_final_present s o now context m r hex]; rfl
  · intro hex
    exact syncContext_get_final_absent s o now context m hex
  · intro hs
    obtain ⟨r, hr⟩ := Option.isSome_iff_exists.mp hs
    exact syncContext_get_final_present s o now context m r hr

/-- C10 witness: the fresh-key clause evaluated on an empty map with two
contributors and successful creates. -/
theorem c10_witness :
    syncMapGet (demoService.syncContext demoOracle 0 demoCtxTwo []).1
      (syncKey demoCtxTwo) = some {} :=
  (c10_final_write demoService demoOracle 0 demoCtxTwo []).2.1 rfl

